import Mathlib

/-!
# cosmodon: vertex arithmetic, the OpenGL backend lifecycle, shader linking and draw submission

A shallow embedding of `src/render/vertex.cpp` and `src/draw/opengl.cpp`.

Conventions of the embedding

* `cosmodon::number` and `GLfloat` are one abstract number type `α`.  The vertex product
  assumes no law of arithmetic: it holds of any `+` and `*`, and `number` supplies the
  special values of floating point (infinities, NaN) to evaluate it on.  The colour
  normalisation of `draw` is taken in a division ring; rounding is not represented.
* Machine integers are natural numbers, reduced modulo `2^w` where the source does
  arithmetic on them (`uint32_t` loop counters, the `uint8_t` instance counter).
* Heap arrays obtained with `new T[count]` are lists of `count` cells; a cell holds
  `none` until it is written.  A write outside the allocation has no defined behaviour
  in C++ and stops the embedded function with `DrawError.heap_overflow`.
* OpenGL / GLFW are external.  Commands are recorded as events (`GLCall` for `draw`,
  `DriverCall` for the shader functions); object names (buffers, shaders, programs) live
  in an explicit `GLState` table; what the driver reports (compile and link status,
  uniform locations, GLEW initialisation) is a parameter of the embedded function.
-/

set_option linter.unusedVariables false
set_option linter.dupNamespace false

namespace cosmodon

/-! ## Data model (`render/vertex.hpp`, `color.hpp`, `vector.hpp`, `matrix.hpp`) -/

/-- Base class `cosmodon::vector`: three components. -/
structure vector (α : Type) where
  x : α
  y : α
  z : α

/-- Base class `cosmodon::color`: four 8-bit channels, kept as naturals. -/
structure color where
  r : Nat
  g : Nat
  b : Nat
  a : Nat
deriving DecidableEq

/-- Class `cosmodon::vertex`: a `vector`, a `color` and the homogeneous coordinate `w`. -/
structure vertex (α : Type) extends vector α, color where
  w : α

/-- Class `cosmodon::matrix`: a 4x4 grid read as `m[row][column]`. -/
abbrev matrix (α : Type) := Matrix (Fin 4) (Fin 4) α

/-- Modelled from the spec: the default constructor of `cosmodon::matrix` (matrix.hpp is
not among the sources) yields the identity matrix; `draw` names its default-constructed
static `identity`. -/
def matrix.identity {α : Type} [Zero α] [One α] : matrix α := 1

section vertex_ops

variable {α : Type}

/-- Vertex default constructor `vertex::vertex()` (the name `vertex.vertex` would shadow
the type inside its own namespace): position `(0, 0, 0)`, colour
`cosmodon::black`, `w = 1`.  The constant `cosmodon::black` is declared outside the
sources at hand and is a parameter. -/
def vertex.new [Zero α] [One α] (black : color) : vertex α :=
  { x := 0, y := 0, z := 0, r := black.r, g := black.g, b := black.b, a := black.a, w := 1 }

/-- Vertex copy constructor `vertex::vertex(const vertex &copy)`. -/
def vertex.copy (copy : vertex α) : vertex α :=
  { x := copy.x, y := copy.y, z := copy.z,
    r := copy.r, g := copy.g, b := copy.b, a := copy.a, w := copy.w }

/-- Assignment to color operator `vertex::operator=(const color value)`. -/
def vertex.operator_assign (self : vertex α) (value : color) : vertex α :=
  let self := { self with r := value.r }
  let self := { self with g := value.g }
  let self := { self with b := value.b }
  let self := { self with a := value.a }
  self

/-- Vertex and matrix multiplication `operator*(const matrix &lhs, const vertex &rhs)`.
The sums and products are those of the number type, taken in the order the source
writes them; no law of arithmetic is assumed. -/
def operator_mul [Add α] [Mul α] [Zero α] [One α] (black : color) (lhs : matrix α)
    (rhs : vertex α) : vertex α :=
  let result : vertex α := vertex.new black
  let result := { result with
    x := (lhs 0 0 * rhs.x) + (lhs 0 1 * rhs.y) + (lhs 0 2 * rhs.z) + (lhs 0 3 * rhs.w) }
  let result := { result with
    y := (lhs 1 0 * rhs.x) + (lhs 1 1 * rhs.y) + (lhs 1 2 * rhs.z) + (lhs 1 3 * rhs.w) }
  let result := { result with
    z := (lhs 2 0 * rhs.x) + (lhs 2 1 * rhs.y) + (lhs 2 2 * rhs.z) + (lhs 2 3 * rhs.w) }
  let result := { result with
    w := (lhs 3 0 * rhs.x) + (lhs 3 1 * rhs.y) + (lhs 3 2 * rhs.z) + (lhs 3 3 * rhs.w) }
  vertex.copy result

/-- Vertex and matrix multiplication, reverse order
`operator*(const vertex &lhs, const matrix &rhs)`. -/
def operator_mul_rev [Add α] [Mul α] [Zero α] [One α] (black : color) (lhs : vertex α)
    (rhs : matrix α) : vertex α :=
  operator_mul black rhs lhs

end vertex_ops

/-! ## Special values of the number type -/

/-- Values of `cosmodon::number`, a floating-point type (`cosmodon::number value = 0.01;`
in the demo, `GLfloat` in the backend): the finite values, the two infinities and NaN.
Finite values carry exact arithmetic, so rounding of a finite result is not
represented, and zero has no sign (`-0.0 == 0.0`). -/
inductive number where
  | finite (q : ℚ)
  | pos_inf
  | neg_inf
  | nan
deriving DecidableEq

/-- Floating-point addition on these values: NaN propagates and the sum of opposite
infinities is NaN. -/
def number.add : number → number → number
  | .nan, _ => .nan
  | _, .nan => .nan
  | .finite a, .finite b => .finite (a + b)
  | .finite _, .pos_inf => .pos_inf
  | .finite _, .neg_inf => .neg_inf
  | .pos_inf, .finite _ => .pos_inf
  | .neg_inf, .finite _ => .neg_inf
  | .pos_inf, .pos_inf => .pos_inf
  | .neg_inf, .neg_inf => .neg_inf
  | .pos_inf, .neg_inf => .nan
  | .neg_inf, .pos_inf => .nan

/-- Sign rule for the product of a finite value with an infinity: zero times infinity is
NaN. -/
def number.scale_inf (a : ℚ) (positive : Bool) : number :=
  if a = 0 then .nan
  else if (0 < a) = positive then .pos_inf
  else .neg_inf

/-- Floating-point multiplication on these values: NaN propagates and zero times an
infinity is NaN. -/
def number.mul : number → number → number
  | .nan, _ => .nan
  | _, .nan => .nan
  | .finite a, .finite b => .finite (a * b)
  | .finite a, .pos_inf => number.scale_inf a true
  | .finite a, .neg_inf => number.scale_inf a false
  | .pos_inf, .finite a => number.scale_inf a true
  | .neg_inf, .finite a => number.scale_inf a false
  | .pos_inf, .pos_inf => .pos_inf
  | .neg_inf, .neg_inf => .pos_inf
  | .pos_inf, .neg_inf => .neg_inf
  | .neg_inf, .pos_inf => .neg_inf

instance : Add number := ⟨number.add⟩

instance : Mul number := ⟨number.mul⟩

instance : Zero number := ⟨.finite 0⟩

instance : One number := ⟨.finite 1⟩

/-! ## The backend object and the camera (`draw/opengl.hpp`, `camera.hpp`) -/

/-- Class `cosmodon::camera` as declared in `camera.hpp`; the position it inherits from
`component::position` is kept as one vector. -/
structure camera (α : Type) where
  m_position : vector α
  m_target : vector α
  m_up : vector α
  m_fov : α
  m_aspect : α
  m_z_near : α
  m_z_far : α
  m_orientation : matrix α
  m_perspective : matrix α

/-- Modelled from the spec: `camera::get_view`, called by `opengl::draw` but defined
nowhere in the sources at hand (camera.hpp declares `get_orientation`); the spec calls
the orientation matrix the view matrix. -/
def camera.get_view {α : Type} (self : camera α) : matrix α := self.m_orientation

/-- Modelled from the spec: `camera::get_projection`, called by `opengl::draw` but
defined nowhere in the sources at hand (camera.hpp declares `get_perspective`); the spec
calls the perspective matrix the projection matrix. -/
def camera.get_projection {α : Type} (self : camera α) : matrix α := self.m_perspective

/-- Members of class `cosmodon::opengl` used by `opengl.cpp`.  `m_camera` is a pointer:
`none` is `nullptr`, `some p` the address of a camera.  Handles are object names. -/
structure opengl where
  m_width : Nat
  m_height : Nat
  m_camera : Option Nat
  m_handle : Nat
  m_positions : Nat
  m_colors : Nat
  m_array : Nat
  m_shader_program : Nat
deriving DecidableEq

/-- Set the camera: `opengl::set_camera` stores the address of its argument. -/
def opengl.set_camera (self : opengl) (camera : Nat) : opengl :=
  { self with m_camera := some camera }

/-! ## Draw submission (`opengl::draw`) -/

/-- Enumerators of the OpenGL API that `opengl::draw` passes. -/
inductive GLenum where
  | GL_FRONT_AND_BACK
  | GL_FILL
  | GL_LINE
  | GL_ARRAY_BUFFER
  | GL_DYNAMIC_DRAW
  | GL_FLOAT
  | GL_TRIANGLES
deriving DecidableEq

/-- OpenGL commands issued by `opengl::draw`, with their arguments.  The data pointer of
`glBufferData` is recorded as the cells it points to, the matrix pointer of
`glUniformMatrix4fv` as the matrix whose `raw()` storage it is. -/
inductive GLCall (α : Type) where
  | glPolygonMode (face mode : GLenum)
  | glBindVertexArray (array : Nat)
  | glBindBuffer (target : GLenum) (buffer : Nat)
  | glBufferData (target : GLenum) (size : Nat) (data : List (Option α)) (usage : GLenum)
  | glEnableVertexAttribArray (index : Nat)
  | glVertexAttribPointer (index size : Nat) (type : GLenum) (normalized : Bool)
      (stride pointer : Nat)
  | glUniformMatrix4fv (location : Int) (count : Nat) (transpose : Bool) (value : matrix α)
  | glDrawArrays (mode : GLenum) (first count : Int)
  | glDisableVertexAttribArray (index : Nat)

/-- Ways in which the embedded `draw` stops without completing. -/
inductive DrawError where
  | heap_overflow
  | out_of_fuel
deriving DecidableEq

/-- Local state of one fill loop of `draw`: the `uint32_t` counters `i`, `j` and the
cells of the array being filled. -/
structure FillState (α : Type) where
  i : Nat
  j : Nat
  cells : List (Option α)

section draw

variable {α : Type}

/-- One statement `array[j++] = value;`: the write needs `j` inside the allocation, and
`j` is incremented as a `uint32_t`. -/
def FillState.store (s : FillState α) (value : α) : Except DrawError (FillState α) :=
  if s.j < s.cells.length then
    .ok { s with cells := s.cells.set s.j (some value), j := (s.j + 1) % 2 ^ 32 }
  else
    .error .heap_overflow

/-- Body of the position loop (opengl.cpp lines 114-117). -/
def positions_body [One α] (v : vertex α) (s : FillState α) : Except DrawError (FillState α) :=
  s.store v.x >>= fun s =>
  s.store v.y >>= fun s =>
  s.store v.z >>= fun s =>
  s.store 1

/-- Body of the colour loop (opengl.cpp lines 129-132). -/
def colors_body [DivisionRing α] (v : vertex α) (s : FillState α) :
    Except DrawError (FillState α) :=
  s.store ((v.r : α) / 255) >>= fun s =>
  s.store ((v.g : α) / 255) >>= fun s =>
  s.store ((v.b : α) / 255) >>= fun s =>
  s.store ((255 : α) / 255)

/-- The loop `for (i = j = 0; i < vertices.size(); i++) body`, started from state `s`.
One unit of fuel is spent per evaluation of the loop condition. -/
def fill_loop (body : vertex α → FillState α → Except DrawError (FillState α))
    (vertices : List (vertex α)) : Nat → FillState α → Except DrawError (FillState α)
  | 0, _ => .error .out_of_fuel
  | fuel + 1, s =>
    if h : s.i < vertices.length then
      match body (vertices.get ⟨s.i, h⟩) s with
      | .ok s => fill_loop body vertices fuel { s with i := (s.i + 1) % 2 ^ 32 }
      | .error e => .error e
    else
      .ok s

/-- Allocation `new GLfloat[count]` followed by a fill loop; returns the filled cells. -/
def fill_array (body : vertex α → FillState α → Except DrawError (FillState α))
    (vertices : List (vertex α)) (count : Nat) : Except DrawError (List (Option α)) :=
  (fill_loop body vertices (vertices.length + 1)
    { i := 0, j := 0, cells := List.replicate count none }).map FillState.cells

/-- One pass of the loop `for (i = j = 0; i < vertices.size(); i++) body` from its head:
the condition is tested, then the body runs and `i` is incremented as a `uint32_t`.
`none` tells that the condition was false and the loop has ended. -/
def fill_iteration (body : vertex α → FillState α → Except DrawError (FillState α))
    (vertices : List (vertex α)) (s : FillState α) : Except DrawError (Option (FillState α)) :=
  if h : s.i < vertices.length then
    match body (vertices.get ⟨s.i, h⟩) s with
    | .ok s => .ok (some { s with i := (s.i + 1) % 2 ^ 32 })
    | .error e => .error e
  else
    .ok none

/-- State at the head of iteration `k` of a fill loop over an array of `count` cells:
the state after `k` passes from `i = j = 0`; `none` when the loop has ended before. -/
def fill_head (body : vertex α → FillState α → Except DrawError (FillState α))
    (vertices : List (vertex α)) (count : Nat) : Nat → Except DrawError (Option (FillState α))
  | 0 => .ok (some { i := 0, j := 0, cells := List.replicate count none })
  | k + 1 =>
    match fill_head body vertices count k with
    | .ok (some s) => fill_iteration body vertices s
    | .ok none => .ok none
    | .error e => .error e

/-- Conversion of `vertices.size()` to the `GLsizei` (32-bit signed) parameter of
`glDrawArrays`. -/
def to_GLsizei (n : Nat) : Int := Int.bmod n (2 ^ 32)

/-- Render vertices: `opengl::draw`.  `glGetUniformLocation` is the driver's answer to the
location query, `memory` gives the camera stored at an address.  The result is the
sequence of OpenGL commands issued. -/
def opengl.draw [DivisionRing α] (glGetUniformLocation : Nat → String → Int)
    (memory : Nat → camera α) (self : opengl) (v : List (vertex α))
    (transform : matrix α) (fill : Bool) : Except DrawError (List (GLCall α)) :=
  let vertices := v
  let identity : matrix α := matrix.identity
  -- Prepare vertices information.
  let count := (vertices.length * 4) % 2 ^ 32
  -- Get vertex positions.
  fill_array positions_body vertices count >>= fun positions =>
  -- Get vertex colors.
  fill_array colors_body vertices count >>= fun colors =>
  -- Prepare orientation matrix.
  let view := match self.m_camera with
    | some p => (memory p).get_view
    | none => identity
  -- Prepare perspective matrix.
  let projection := match self.m_camera with
    | some p => (memory p).get_projection
    | none => identity
  .ok [
    .glPolygonMode .GL_FRONT_AND_BACK (if fill then .GL_FILL else .GL_LINE),
    .glBindVertexArray self.m_array,
    .glBindBuffer .GL_ARRAY_BUFFER self.m_positions,
    .glBufferData .GL_ARRAY_BUFFER (count * 4) positions .GL_DYNAMIC_DRAW,
    .glEnableVertexAttribArray 0,
    .glVertexAttribPointer 0 4 .GL_FLOAT false 0 0,
    .glBindBuffer .GL_ARRAY_BUFFER self.m_colors,
    .glBufferData .GL_ARRAY_BUFFER (count * 4) colors .GL_DYNAMIC_DRAW,
    .glEnableVertexAttribArray 1,
    .glVertexAttribPointer 1 4 .GL_FLOAT false 0 0,
    .glUniformMatrix4fv (glGetUniformLocation self.m_shader_program "matrix_model") 1 true
      transform,
    .glUniformMatrix4fv (glGetUniformLocation self.m_shader_program "matrix_view") 1 true
      view,
    .glUniformMatrix4fv (glGetUniformLocation self.m_shader_program "matrix_projection") 1
      true projection,
    .glDrawArrays .GL_TRIANGLES 0 (to_GLsizei vertices.length),
    .glDisableVertexAttribArray 0,
    .glDisableVertexAttribArray 1 ]

end draw

/-! ## Driver object tables and the process-wide state -/

/-- Exceptions of `common/exception.hpp` thrown by the backend. -/
inductive exception where
  | fatal (what : String)
deriving DecidableEq

/-- A program object of the driver: its name, the shader objects attached to it and the
attribute locations bound on it. -/
structure ProgramObject where
  name : Nat
  attached : List Nat
  attributes : List (Nat × String)
deriving DecidableEq

/-- Object names the OpenGL context holds: buffer objects, vertex array objects, shader
objects, program objects, and the program in use (`0` for none).  A name is allocated
from its `glGen*` / `glCreate*` call until the matching `glDelete*` call. -/
structure GLState where
  buffers : List Nat
  arrays : List Nat
  shaders : List Nat
  programs : List ProgramObject
  current_program : Nat
deriving DecidableEq

/-- A name that is not in use: one more than the largest name in use, never `0`. -/
def fresh (used : List Nat) : Nat := used.foldr max 0 + 1

/-- Shader and program objects share one name space. -/
def GLState.object_names (gl : GLState) : List Nat :=
  gl.shaders ++ gl.programs.flatMap (fun q => q.name :: q.attached)

/-- `glGenBuffers(1, &name)`. -/
def glGenBuffers (gl : GLState) : Nat × GLState :=
  (fresh gl.buffers, { gl with buffers := fresh gl.buffers :: gl.buffers })

/-- `glDeleteBuffers(1, &name)`; names that are not in use are ignored. -/
def glDeleteBuffers (gl : GLState) (name : Nat) : GLState :=
  { gl with buffers := gl.buffers.erase name }

/-- `glGenVertexArrays(1, &name)`. -/
def glGenVertexArrays (gl : GLState) : Nat × GLState :=
  (fresh gl.arrays, { gl with arrays := fresh gl.arrays :: gl.arrays })

/-- `glUseProgram(program)`. -/
def glUseProgram (gl : GLState) (program : Nat) : GLState :=
  { gl with current_program := program }

/-- `glDeleteProgram(program)` for a program that is not in use; other values are
ignored. -/
def glDeleteProgram (gl : GLState) (program : Nat) : GLState :=
  { gl with programs := gl.programs.filter (fun q => q.name ≠ program) }

/-- `glCreateProgram()`. -/
def glCreateProgram (gl : GLState) : Nat × GLState :=
  (fresh gl.object_names,
    { gl with programs := { name := fresh gl.object_names, attached := [], attributes := [] }
                            :: gl.programs })

/-- `glBindAttribLocation(program, index, name)`. -/
def glBindAttribLocation (gl : GLState) (program index : Nat) (name : String) : GLState :=
  { gl with programs := gl.programs.map (fun q =>
      if q.name = program then { q with attributes := q.attributes ++ [(index, name)] } else q) }

/-- `glCreateShader(type)`. -/
def glCreateShader (gl : GLState) : Nat × GLState :=
  (fresh gl.object_names, { gl with shaders := fresh gl.object_names :: gl.shaders })

/-- `glDeleteShader(shader)` for a shader that is attached to no program. -/
def glDeleteShader (gl : GLState) (shader : Nat) : GLState :=
  { gl with shaders := gl.shaders.erase shader }

/-- `glAttachShader(program, shader)`. -/
def glAttachShader (gl : GLState) (program shader : Nat) : GLState :=
  { gl with programs := gl.programs.map (fun q =>
      if q.name = program then { q with attached := q.attached ++ [shader] } else q) }

/-- `glDetachShader(program, shader)`. -/
def glDetachShader (gl : GLState) (program shader : Nat) : GLState :=
  { gl with programs := gl.programs.map (fun q =>
      if q.name = program then { q with attached := q.attached.erase shader } else q) }

/-- State shared by all backend objects of the process: the static counter
`opengl::m_instances` (a `uint8_t`), the driver's object tables, the GLFW windows, and
the backend objects whose constructor has completed and whose destructor has not run. -/
structure World where
  m_instances : Nat
  gl : GLState
  windows : List Nat
  live : List opengl
deriving DecidableEq

/-- State at program start: `m_instances = 0`, nothing allocated, no backend object. -/
def World.initial : World :=
  { m_instances := 0,
    gl := { buffers := [], arrays := [], shaders := [], programs := [], current_program := 0 },
    windows := [], live := [] }

/-- Constructor `opengl::opengl(width, height, title)`.  `glewInit` tells whether
`glewInit()` returns `GLEW_OK`; GLFW initialisation and window creation are taken to
succeed.  `garbage` is the indeterminate initial value of `m_shader_program`, which the
constructor does not initialise.  An exception leaves no object behind. -/
def opengl.new (width height : Nat) (title : String) (glewInit : Bool) (garbage : Nat)
    (w : World) : Except exception opengl × World :=
  -- Ensure this is the only active instance.
  if w.m_instances ≠ 0 then
    (.error (.fatal "Failed to initialize OpenGL: An instance already exists."), w)
  else
    let w := { w with m_instances := (w.m_instances + 1) % 2 ^ 8 }
    -- Create window.
    let m_handle := fresh w.windows
    let w := { w with windows := m_handle :: w.windows }
    -- Initialize GLEW.
    if glewInit = false then
      (.error (.fatal "Failed to initialize GLEW."), w)
    else
      -- Generate OpenGL buffers.
      let (m_positions, gl) := glGenBuffers w.gl
      let (m_colors, gl) := glGenBuffers gl
      -- Generate OpenGL vertex array objects.
      let (m_array, gl) := glGenVertexArrays gl
      let self : opengl :=
        { m_width := width, m_height := height, m_camera := none, m_handle := m_handle,
          m_positions := m_positions, m_colors := m_colors, m_array := m_array,
          m_shader_program := garbage }
      (.ok self, { w with gl := gl, live := self :: w.live })

/-- An OpenGL context that holds no object. -/
def GLState.no_objects : GLState :=
  { buffers := [], arrays := [], shaders := [], programs := [], current_program := 0 }

/-- Call `glfwTerminate()`: every window is destroyed, and with a window its OpenGL
context.  The backend creates its window with no shared context
(`glfwCreateWindow(..., nullptr, nullptr)`), so every object of the context goes with
it. -/
def glfwTerminate (w : World) : World :=
  { w with gl := GLState.no_objects, windows := [] }

/-- Destructor `opengl::~opengl()`: two `glDeleteBuffers` calls, both on `m_positions`,
then `glfwTerminate()`, then the counter is decremented as a `uint8_t`. -/
def opengl.delete (self : opengl) (w : World) : World :=
  -- Destroy OpenGL buffers.
  let gl := glDeleteBuffers w.gl self.m_positions
  let gl := glDeleteBuffers gl self.m_positions
  let w := { w with gl := gl }
  -- Deinitialize GLFW.
  let w := glfwTerminate w
  -- Reset instance count.
  { w with m_instances := (w.m_instances + 2 ^ 8 - 1) % 2 ^ 8, live := w.live.erase self }

/-- States reached from program start by constructions in which GLFW and GLEW
initialisation succeed (a construction may still be rejected as a duplicate), by
destructions of live backend objects, and by calls of the other member functions, which
may change the driver tables and the members of live objects but neither create nor
destroy a backend object nor touch the counter. -/
inductive InitOkRun : World → Prop where
  | start : InitOkRun World.initial
  | construct (w : World) (width height : Nat) (title : String) (garbage : Nat) :
      InitOkRun w → InitOkRun (opengl.new width height title true garbage w).2
  | destroy (w : World) (self : opengl) :
      InitOkRun w → self ∈ w.live → InitOkRun (opengl.delete self w)
  | method (w : World) (gl : GLState) (live : List opengl) :
      InitOkRun w → live.length = w.live.length → InitOkRun { w with gl := gl, live := live }

/-- States reached from program start by any constructions (successful, rejected as a
duplicate, or throwing after a failed `glewInit()`, in which case no object exists and no
destructor runs) and by destructions of live backend objects. -/
inductive Run : World → Prop where
  | start : Run World.initial
  | construct (w : World) (width height : Nat) (title : String) (glewInit : Bool)
      (garbage : Nat) : Run w → Run (opengl.new width height title glewInit garbage w).2
  | destroy (w : World) (self : opengl) :
      Run w → self ∈ w.live → Run (opengl.delete self w)

/-! ## Shaders (`opengl::compile_shader`, `opengl::set_shaders`) -/

/-- Modelled from the spec: the type tag of `cosmodon::shader` (shader.hpp is not among
the sources): vertex, fragment or geometry. -/
inductive shader_level where
  | vertex
  | fragment
  | geometry
deriving DecidableEq

/-- Class `cosmodon::shader`: the members `level` and `code` read by `compile_shader`. -/
structure shader where
  level : shader_level
  code : String
deriving DecidableEq

/-- Shader types of the OpenGL API that `compile_shader` passes to `glCreateShader`. -/
inductive ShaderType where
  | GL_VERTEX_SHADER
  | GL_FRAGMENT_SHADER
deriving DecidableEq

/-- Driver commands that `compile_shader` and `set_shaders` issue, with their arguments;
a creating command carries the name it returned. -/
inductive DriverCall where
  | glUseProgram (program : Nat)
  | glDeleteProgram (program : Nat)
  | glCreateProgram (result : Nat)
  | glBindAttribLocation (program index : Nat) (name : String)
  | glCreateShader (type : ShaderType) (result : Nat)
  | glShaderSource (shader : Nat) (code : String)
  | glCompileShader (shader : Nat)
  | glDeleteShader (shader : Nat)
  | glAttachShader (program shader : Nat)
  | glLinkProgram (program : Nat)
  | glDetachShader (program shader : Nat)
deriving DecidableEq

/-- Effect of one driver command on the object tables. -/
def DriverCall.apply : DriverCall → GLState → GLState
  | .glUseProgram program, gl => cosmodon.glUseProgram gl program
  | .glDeleteProgram program, gl => cosmodon.glDeleteProgram gl program
  | .glCreateProgram _, gl => (cosmodon.glCreateProgram gl).2
  | .glBindAttribLocation program index name, gl =>
    cosmodon.glBindAttribLocation gl program index name
  | .glCreateShader _ _, gl => (cosmodon.glCreateShader gl).2
  | .glShaderSource _ _, gl => gl
  | .glCompileShader _, gl => gl
  | .glDeleteShader shader, gl => cosmodon.glDeleteShader gl shader
  | .glAttachShader program shader, gl => cosmodon.glAttachShader gl program shader
  | .glLinkProgram _, gl => gl
  | .glDetachShader program shader, gl => cosmodon.glDetachShader gl program shader

/-- The driver as the shader functions see it: its object tables and the commands
issued so far, oldest first. -/
structure Driver where
  gl : GLState
  calls : List DriverCall
deriving DecidableEq

/-- Issue one command: it acts on the tables and is recorded. -/
def Driver.issue (d : Driver) (c : DriverCall) : Driver :=
  { gl := c.apply d.gl, calls := d.calls ++ [c] }

/-- Compile shader: `opengl::compile_shader`.  `status` is the driver's
`GL_COMPILE_STATUS` for a shader, `report` its info log. -/
def opengl.compile_shader (status : shader → Bool) (report : shader → String)
    (sh : shader) (d : Driver) : Except exception Nat × Driver :=
  -- Determine shader type.
  let type : Except exception ShaderType :=
    match sh.level with
    | .vertex => .ok .GL_VERTEX_SHADER
    | .fragment => .ok .GL_FRAGMENT_SHADER
    | .geometry => .error (.fatal "Cannot compile OpenGL shader with unsupported type.")
  match type with
  | .error e => (.error e, d)
  | .ok type =>
    -- Compile shader.
    let object := (glCreateShader d.gl).1
    let d := d.issue (.glCreateShader type object)
    let d := d.issue (.glShaderSource object sh.code)
    let d := d.issue (.glCompileShader object)
    -- Report compilation errors.
    if status sh = false then
      (.error (.fatal ("Failed to compile OpenGL shader: " ++ report sh)),
        d.issue (.glDeleteShader object))
    else
      -- Return compiled OpenGL shader.
      (.ok object, d)

/-- First statements of `opengl::set_shaders` (opengl.cpp lines 240-247): the old program
is unbound and deleted, a new program is created and stored in `m_shader_program`, the
attribute locations are bound. -/
def opengl.set_shaders_prologue (self : opengl) (d : Driver) : opengl × Driver :=
  -- Destroy old program.
  let d := d.issue (.glUseProgram 0)
  let d := d.issue (.glDeleteProgram self.m_shader_program)
  let program := (glCreateProgram d.gl).1
  let d := d.issue (.glCreateProgram program)
  let self := { self with m_shader_program := program }
  -- Bind attribute locations.
  let d := d.issue (.glBindAttribLocation self.m_shader_program 0 "position")
  let d := d.issue (.glBindAttribLocation self.m_shader_program 1 "color")
  (self, d)

/-- Set shaders: `opengl::set_shaders`.  `link_status` is the driver's `GL_LINK_STATUS`
after `glLinkProgram`.  Returns the thrown exception or the returned `bool`, the backend
object and the driver. -/
def opengl.set_shaders (status : shader → Bool) (report : shader → String)
    (link_status : Bool) (self : opengl) (vertex fragment : shader)
    (geometry : Option shader) (d : Driver) : Except exception Bool × opengl × Driver :=
  let (self, d) := opengl.set_shaders_prologue self d
  -- Compile shaders.
  match opengl.compile_shader status report vertex d with
  | (.error e, d) => (.error e, self, d)
  | (.ok shader_vertex, d) =>
    match opengl.compile_shader status report fragment d with
    | (.error e, d) => (.error e, self, d)
    | (.ok shader_fragment, d) =>
      -- Link shaders.
      let d := d.issue (.glAttachShader self.m_shader_program shader_vertex)
      let d := d.issue (.glAttachShader self.m_shader_program shader_fragment)
      let d := d.issue (.glLinkProgram self.m_shader_program)
      -- Destroy shaders.
      let d := d.issue (.glDetachShader self.m_shader_program shader_vertex)
      let d := d.issue (.glDetachShader self.m_shader_program shader_fragment)
      let d := d.issue (.glDeleteShader shader_vertex)
      let d := d.issue (.glDeleteShader shader_fragment)
      -- Report linking errors.
      if link_status = false then
        (.error (.fatal "Failed to link OpenGL shaders."),
          { self with m_shader_program := 0 }, d)
      else
        -- Start using new shader program.
        (.ok true, self, d.issue (.glUseProgram self.m_shader_program))

/-! ## Concrete inputs used to evaluate the embedding -/

/-- The state after the demo's `cosmodon::opengl window(1024, 768, "Cosmodon Demo")`. -/
def demo_world : World :=
  (opengl.new 1024 768 "Cosmodon Demo" true 0 World.initial).2

/-- The backend object that construction yields. -/
def demo_backend : opengl :=
  { m_width := 1024, m_height := 768, m_camera := none, m_handle := 1, m_positions := 1,
    m_colors := 2, m_array := 1, m_shader_program := 0 }

/-- The driver after the demo's construction, before any shader command. -/
def demo_driver : Driver := { gl := demo_world.gl, calls := [] }

/-- A driver that compiles every shader. -/
def accepting_status : shader → Bool := fun _ => true

/-- A driver with an empty info log. -/
def empty_report : shader → String := fun _ => ""

/-- A vertex-level shader. -/
def demo_vertex_shader : shader := { level := .vertex, code := "void main();" }

/-- A fragment-level shader. -/
def demo_fragment_shader : shader := { level := .fragment, code := "void main();" }

/-- A vertex with stored alpha `0` and stored `w = 7`. -/
def big_vertex : vertex ℚ :=
  { x := 1, y := 2, z := 3, r := 10, g := 20, b := 30, a := 0, w := 7 }

/-- A matrix that differs from its transpose: a single `1` in row 0, column 1. -/
def off_diagonal_matrix : matrix ℚ :=
  !![0, 1, 0, 0; 0, 0, 0, 0; 0, 0, 0, 0; 0, 0, 0, 0]

/-- A colour standing for `cosmodon::black`. -/
def sample_black : color := { r := 0, g := 0, b := 0, a := 255 }

/-- A vertex with an infinite `y`: `vertex(1, inf, 0, 1, color)`. -/
def unbounded_vertex : vertex number :=
  { x := .finite 1, y := .pos_inf, z := .finite 0, r := 10, g := 20, b := 30, a := 40,
    w := .finite 1 }

/-- A vertex with finite coordinates: `vertex(1, -2, 0, 7, color)`. -/
def finite_vertex : vertex number :=
  { x := .finite 1, y := .finite (-2), z := .finite 0, r := 10, g := 20, b := 30, a := 40,
    w := .finite 7 }

/-- A sequence of two vertices. -/
def two_vertices : List (vertex ℚ) :=
  [big_vertex, { x := 4, y := 5, z := 6, r := 255, g := 0, b := 51, a := 128, w := 1 }]

/-- The state after a construction from program start in which `glewInit()` fails. -/
def glew_failed_world : World :=
  (opengl.new 1024 768 "Cosmodon Demo" false 0 World.initial).2

/-- A sequence of `2^30` vertices. -/
def big_vertices : List (vertex ℚ) := List.replicate (2 ^ 30) big_vertex

/-- A sequence of `2^31` vertices. -/
def huge_vertices : List (vertex ℚ) := List.replicate (2 ^ 31) big_vertex

/-- A driver that places the three uniforms at locations 0, 1, 2. -/
def demo_locations : Nat → String → Int := fun _ name =>
  if name = "matrix_model" then 0 else if name = "matrix_view" then 1 else 2

/-- A memory in which every address holds the same camera. -/
def demo_memory : Nat → camera ℚ := fun _ =>
  { m_position := ⟨0, 0, -5⟩, m_target := ⟨0, 0, 0⟩, m_up := ⟨0, 1, 0⟩, m_fov := 60,
    m_aspect := 1, m_z_near := 1, m_z_far := 100, m_orientation := 1, m_perspective := 1 }

/-! ## The standard matrix-times-column product -/

/-- Component `k` of the product of a 4x4 matrix with a column vector: row `k` of the
matrix dotted with the vector, the four products summed from left to right in the
arithmetic of the number type. -/
def matrix_times_column {α : Type} [Add α] [Mul α] (M : matrix α) (c : Fin 4 → α)
    (k : Fin 4) : α :=
  M k 0 * c 0 + M k 1 * c 1 + M k 2 * c 2 + M k 3 * c 3

/-! ## What the two buffers are meant to hold -/

/-- The four reals the position buffer holds for one vertex: `(x, y, z, 1.0)`. -/
def position_entries {α : Type} [One α] (v : vertex α) : List α := [v.x, v.y, v.z, 1]

/-- The four reals the colour buffer holds for one vertex: `(r/255, g/255, b/255, 1.0)`. -/
def color_entries {α : Type} [DivisionRing α] (v : vertex α) : List α :=
  [(v.r : α) / 255, (v.g : α) / 255, (v.b : α) / 255, 1]

/-- A loop body writes the four entries `emit v` at `j .. j+3` and advances `j` by four
whenever those four cells lie inside the allocation. -/
def BodyEmits {α : Type} (body : vertex α → FillState α → Except DrawError (FillState α))
    (emit : vertex α → List α) : Prop :=
  ∀ (v : vertex α) (i : Nat) (pre : List α) (rest : List (Option α)),
    pre.length + 4 < 2 ^ 32 →
    (emit v).length = 4 ∧
    body v { i := i, j := pre.length, cells := pre.map some ++ (List.replicate 4 none ++ rest) }
      = .ok { i := i, j := pre.length + 4, cells := (pre ++ emit v).map some ++ rest }

/-- A loop body starts with a write at `j`, so it overflows when `j` is outside the
allocation. -/
def BodyOverflows {α : Type} (body : vertex α → FillState α → Except DrawError (FillState α)) :
    Prop :=
  ∀ (v : vertex α) (s : FillState α), s.cells.length ≤ s.j → body v s = .error .heap_overflow

/-! ## Vertex theorems -/

section vertex_theorems

variable {α : Type}

/-- C4: for every vertex `v` and matrix `M`, `v * M` and `M * v` are the same vertex (all
of `x, y, z, w` and the colour channels); the reversed-operand form is not the product
with the transpose, which already differs in `x` for a matrix with a single off-diagonal
entry. -/
theorem operator_mul_rev_eq [Semiring α] (black : color) (v : vertex α) (M : matrix α) :
    operator_mul_rev black v M = operator_mul black M v ∧
    (operator_mul_rev black big_vertex off_diagonal_matrix).x
      ≠ (operator_mul black off_diagonal_matrix.transpose big_vertex).x := by
  refine ⟨rfl, ?_⟩
  simp [operator_mul_rev, operator_mul, vertex.copy, vertex.new, off_diagonal_matrix,
    big_vertex, Matrix.transpose, Matrix.vecHead, Matrix.vecTail]

/-- C5: after `v = c` the fields `r, g, b, a` of the vertex are those of `c` and
`x, y, z, w` are unchanged. -/
theorem operator_assign_frame (v : vertex α) (c : color) :
    (v.operator_assign c).r = c.r ∧ (v.operator_assign c).g = c.g ∧
    (v.operator_assign c).b = c.b ∧ (v.operator_assign c).a = c.a ∧
    (v.operator_assign c).x = v.x ∧ (v.operator_assign c).y = v.y ∧
    (v.operator_assign c).z = v.z ∧ (v.operator_assign c).w = v.w := by
  simp [vertex.operator_assign]

/-- Under the laws of a semiring the left-to-right row product is the matrix-vector
product of the library. -/
theorem matrix_times_column_eq_mulVec [Semiring α] (M : matrix α) (c : Fin 4 → α) :
    matrix_times_column M c = Matrix.mulVec M c := by
  funext k
  simp [matrix_times_column, Matrix.mulVec, Matrix.dotProduct, Fin.sum_univ_four, add_assoc]

/-- Finite values obey the laws the identity product needs. -/
theorem number.finite_laws (q : ℚ) :
    (1 : number) * .finite q = .finite q ∧ (0 : number) * .finite q = 0 ∧
    (.finite q : number) + 0 = .finite q ∧ (0 : number) + .finite q = .finite q := by
  refine ⟨?_, ?_, ?_, ?_⟩
  · show number.mul (.finite 1) (.finite q) = .finite q
    simp [number.mul]
  · show number.mul (.finite 0) (.finite q) = .finite 0
    simp [number.mul]
  · show number.add (.finite q) (.finite 0) = .finite q
    simp [number.add]
  · show number.add (.finite 0) (.finite q) = .finite q
    simp [number.add]

/-- The identity product returns the coordinates of every vertex whose four coordinates
are finite. -/
theorem identity_product_finite (black : color) (x y z w : ℚ) (c : color) :
    (operator_mul black matrix.identity
      ({ x := .finite x, y := .finite y, z := .finite z, r := c.r, g := c.g, b := c.b,
         a := c.a, w := .finite w } : vertex number)).tovector
      = ⟨.finite x, .finite y, .finite z⟩ ∧
    (operator_mul black matrix.identity
      ({ x := .finite x, y := .finite y, z := .finite z, r := c.r, g := c.g, b := c.b,
         a := c.a, w := .finite w } : vertex number)).w = .finite w := by
  obtain ⟨hx1, hx0, hxr, hxl⟩ := number.finite_laws x
  obtain ⟨hy1, hy0, hyr, hyl⟩ := number.finite_laws y
  obtain ⟨hz1, hz0, hzr, hzl⟩ := number.finite_laws z
  obtain ⟨hw1, hw0, hwr, hwl⟩ := number.finite_laws w
  have h00 : (0 : number) + 0 = 0 := (number.finite_laws 0).2.2.1
  simp [operator_mul, vertex.copy, vertex.new, matrix.identity, Matrix.one_apply,
    hx1, hx0, hxr, hxl, hy1, hy0, hyr, hyl, hz1, hz0, hzr, hzl, hw1, hw0, hwr, hwl, h00]

/-- Zero times an infinity is NaN, and NaN absorbs every sum. -/
theorem number.zero_mul_inf :
    (0 : number) * .pos_inf = .nan ∧ (∀ a : number, a + .nan = .nan) ∧
    (∀ a : number, .nan + a = .nan) := by
  refine ⟨?_, fun a => ?_, fun a => ?_⟩
  · show number.mul (.finite 0) .pos_inf = .nan
    simp [number.mul, number.scale_inf]
  · show number.add a .nan = .nan
    cases a <;> rfl
  · show number.add .nan a = .nan
    cases a <;> rfl

/-- The identity product evaluated at a vertex with an infinite coordinate: for
`v = (1, inf, 0, 1)` the `x` of `identity * v` is
`1*1 + 0*inf + 0*0 + 0*1 = NaN`, not `v.x = 1`. -/
theorem identity_product_changes_x :
    (operator_mul sample_black matrix.identity unbounded_vertex).x = .nan ∧
    unbounded_vertex.x = .finite 1 ∧
    (operator_mul sample_black matrix.identity unbounded_vertex).x ≠ unbounded_vertex.x := by
  have hx : (operator_mul sample_black matrix.identity unbounded_vertex).x = .nan := by
    have h01 : (matrix.identity : matrix number) 0 1 = 0 := by
      simp [matrix.identity, Matrix.one_apply]
    simp only [operator_mul, vertex.copy, unbounded_vertex, h01]
    rw [number.zero_mul_inf.1, number.zero_mul_inf.2.1, number.zero_mul_inf.2.2,
      number.zero_mul_inf.2.2]
  refine ⟨hx, rfl, ?_⟩
  rw [hx]
  simp [unbounded_vertex]

/-- C10: the `x, y, z, w` of `M * v` are row `k` of `M` dotted with
`(v.x, v.y, v.z, v.w)`, the products summed from left to right in the arithmetic of the
number type; the colour of the result is that of a default-constructed vertex, whatever
the colour of `v`; with the identity matrix `x, y, z, w` are returned unchanged for every
vertex on whose coordinates `c` the arithmetic satisfies `1 * c = c`, `0 * c = 0` and
`c + 0 = 0 + c = c`. -/
theorem operator_mul_components [Add α] [Mul α] [Zero α] [One α] (black : color)
    (M : matrix α) (v : vertex α) :
    (operator_mul black M v).x = matrix_times_column M ![v.x, v.y, v.z, v.w] 0 ∧
    (operator_mul black M v).y = matrix_times_column M ![v.x, v.y, v.z, v.w] 1 ∧
    (operator_mul black M v).z = matrix_times_column M ![v.x, v.y, v.z, v.w] 2 ∧
    (operator_mul black M v).w = matrix_times_column M ![v.x, v.y, v.z, v.w] 3 ∧
    (operator_mul black M v).tocolor = (vertex.new black : vertex α).tocolor ∧
    ((∀ c ∈ [v.x, v.y, v.z, v.w], 1 * c = c ∧ 0 * c = 0 ∧ c + 0 = c ∧ 0 + c = c) →
      (0 : α) + 0 = 0 →
      (operator_mul black matrix.identity v).x = v.x ∧
      (operator_mul black matrix.identity v).y = v.y ∧
      (operator_mul black matrix.identity v).z = v.z ∧
      (operator_mul black matrix.identity v).w = v.w) := by
  refine ⟨rfl, rfl, rfl, rfl, rfl, fun hc h00 => ?_⟩
  obtain ⟨hx1, hx0, hxr, hxl⟩ := hc v.x (by simp)
  obtain ⟨hy1, hy0, hyr, hyl⟩ := hc v.y (by simp)
  obtain ⟨hz1, hz0, hzr, hzl⟩ := hc v.z (by simp)
  obtain ⟨hw1, hw0, hwr, hwl⟩ := hc v.w (by simp)
  simp [operator_mul, vertex.copy, vertex.new, matrix.identity, Matrix.one_apply,
    hx1, hx0, hxr, hxl, hy1, hy0, hyr, hyl, hz1, hz0, hzr, hzl, hw1, hw0, hwr, hwl, h00]

theorem operator_mul_components_witness :
    (∀ c ∈ [finite_vertex.x, finite_vertex.y, finite_vertex.z, finite_vertex.w],
      1 * c = c ∧ 0 * c = 0 ∧ c + 0 = c ∧ 0 + c = c) ∧
    (0 : number) + 0 = 0 ∧
    (operator_mul sample_black matrix.identity finite_vertex).x = finite_vertex.x ∧
    (operator_mul sample_black matrix.identity finite_vertex).y = finite_vertex.y ∧
    (operator_mul sample_black matrix.identity finite_vertex).z = finite_vertex.z ∧
    (operator_mul sample_black matrix.identity finite_vertex).w = finite_vertex.w :=
  have hc : ∀ c ∈ [finite_vertex.x, finite_vertex.y, finite_vertex.z, finite_vertex.w],
      1 * c = c ∧ 0 * c = 0 ∧ c + 0 = c ∧ 0 + c = c := by
    intro c hmem
    simp only [finite_vertex, List.mem_cons, List.mem_singleton, List.not_mem_nil,
      or_false] at hmem
    rcases hmem with rfl | rfl | rfl | rfl <;> exact number.finite_laws _
  have h00 : (0 : number) + 0 = 0 := (number.finite_laws 0).2.2.1
  ⟨hc, h00,
    (operator_mul_components sample_black matrix.identity finite_vertex).2.2.2.2.2 hc h00⟩

end vertex_theorems

/-! ## The fill loops of `draw` -/

section fill_lemmas

variable {α : Type}

theorem set_length_append {β : Type} (l : List β) (a b : β) (r : List β) :
    (l ++ a :: r).set l.length b = l ++ b :: r := by
  induction l with
  | nil => rfl
  | cons x l ih => simp [ih]

theorem FillState.store_next (i : Nat) (pre : List α) (o : Option α) (rest : List (Option α))
    (x : α) (h : pre.length + 1 < 2 ^ 32) :
    FillState.store { i := i, j := pre.length, cells := pre.map some ++ o :: rest } x
      = .ok { i := i, j := pre.length + 1, cells := (pre ++ [x]).map some ++ rest } := by
  have hset := set_length_append (pre.map some) o (some x) rest
  simp only [List.length_map] at hset
  simp [FillState.store, hset]
  omega

theorem FillState.store_overflow (s : FillState α) (x : α) (h : s.cells.length ≤ s.j) :
    s.store x = .error .heap_overflow := by
  simp [FillState.store, Nat.not_lt.mpr h]

theorem FillState.store_at (i j : Nat) (pre : List α) (o : Option α)
    (rest : List (Option α)) (x : α) (hj : j = pre.length) (h : j + 1 < 2 ^ 32) :
    FillState.store { i := i, j := j, cells := pre.map some ++ o :: rest } x
      = .ok { i := i, j := j + 1, cells := (pre ++ [x]).map some ++ rest } := by
  subst hj
  exact FillState.store_next i pre o rest x h

theorem except_ok_bind {ε β γ : Type} (a : β) (f : β → Except ε γ) :
    (Except.ok a >>= f) = f a := rfl

theorem except_error_bind {ε β γ : Type} (e : ε) (f : β → Except ε γ) :
    ((Except.error e : Except ε β) >>= f) = .error e := rfl

/-- The position loop body writes `(x, y, z, 1.0)`. -/
theorem positions_body_emits [One α] :
    BodyEmits (positions_body : vertex α → _) position_entries := by
  intro v i pre rest h
  refine ⟨rfl, ?_⟩
  have e1 := FillState.store_at i pre.length pre none (none :: none :: none :: rest) v.x rfl
    (by omega)
  have e2 := FillState.store_at i (pre.length + 1) (pre ++ [v.x]) none (none :: none :: rest)
    v.y (by simp) (by omega)
  have e3 := FillState.store_at i (pre.length + 1 + 1) (pre ++ [v.x] ++ [v.y]) none
    (none :: rest) v.z (by simp) (by omega)
  have e4 := FillState.store_at i (pre.length + 1 + 1 + 1) (pre ++ [v.x] ++ [v.y] ++ [v.z])
    none rest (1 : α) (by simp) (by omega)
  have hr : pre.map some ++ (List.replicate 4 none ++ rest)
      = pre.map some ++ none :: none :: none :: none :: rest := rfl
  unfold positions_body
  rw [hr, e1, except_ok_bind, e2, except_ok_bind, e3, except_ok_bind, e4]
  simp [position_entries]

/-- The colour loop body writes `(r/255, g/255, b/255, 1.0)`: the fourth entry
`255.0f / 255.0f` is one in a division ring of characteristic zero. -/
theorem colors_body_emits [DivisionRing α] [CharZero α] :
    BodyEmits (colors_body : vertex α → _) color_entries := by
  intro v i pre rest h
  refine ⟨rfl, ?_⟩
  have h255 : (255 : α) / 255 = 1 := div_self (by norm_num)
  have e1 := FillState.store_at i pre.length pre none (none :: none :: none :: rest)
    ((v.r : α) / 255) rfl (by omega)
  have e2 := FillState.store_at i (pre.length + 1) (pre ++ [(v.r : α) / 255]) none
    (none :: none :: rest) ((v.g : α) / 255) (by simp) (by omega)
  have e3 := FillState.store_at i (pre.length + 1 + 1)
    (pre ++ [(v.r : α) / 255] ++ [(v.g : α) / 255]) none (none :: rest) ((v.b : α) / 255)
    (by simp) (by omega)
  have e4 := FillState.store_at i (pre.length + 1 + 1 + 1)
    (pre ++ [(v.r : α) / 255] ++ [(v.g : α) / 255] ++ [(v.b : α) / 255]) none rest
    ((255 : α) / 255) (by simp) (by omega)
  have hr : pre.map some ++ (List.replicate 4 none ++ rest)
      = pre.map some ++ none :: none :: none :: none :: rest := rfl
  unfold colors_body
  rw [hr, e1, except_ok_bind, e2, except_ok_bind, e3, except_ok_bind, e4]
  simp [color_entries, h255]

theorem positions_body_overflows [One α] : BodyOverflows (positions_body : vertex α → _) := by
  intro v s h
  simp only [positions_body, FillState.store_overflow s v.x h, except_error_bind]

theorem colors_body_overflows [DivisionRing α] :
    BodyOverflows (colors_body : vertex α → _) := by
  intro v s h
  simp only [colors_body, FillState.store_overflow s _ h, except_error_bind]

theorem length_flatMap_four (emit : vertex α → List α) (h4 : ∀ v, (emit v).length = 4)
    (l : List (vertex α)) : (l.flatMap emit).length = 4 * l.length := by
  induction l with
  | nil => rfl
  | cons a l ih =>
    rw [List.flatMap_cons, List.length_append, h4, ih, List.length_cons]
    omega

theorem flatMap_take_succ (emit : vertex α → List α) (l : List (vertex α)) (k : Nat)
    (hk : k < l.length) :
    (l.take (k + 1)).flatMap emit = (l.take k).flatMap emit ++ emit (l.get ⟨k, hk⟩) := by
  rw [List.take_succ, List.flatMap_append, List.getElem?_eq_getElem hk]
  simp [List.flatMap_cons]

/-- Loop invariant of a fill loop that stays inside its allocation: entering iteration
`k` with the first `4k` cells written and `4m` cells left for the `m` remaining
vertices, the loop ends with `i = n`, `j = 4n` and every cell written, in vertex order. -/
theorem fill_loop_in_range (body : vertex α → FillState α → Except DrawError (FillState α))
    (emit : vertex α → List α) (hb : BodyEmits body emit) (vs : List (vertex α))
    (hn : 4 * vs.length < 2 ^ 32) :
    ∀ (m k : Nat), k + m = vs.length →
      fill_loop body vs (m + 1)
        { i := k, j := ((vs.take k).flatMap emit).length,
          cells := ((vs.take k).flatMap emit).map some ++ List.replicate (4 * m) none }
      = .ok { i := vs.length, j := 4 * vs.length, cells := (vs.flatMap emit).map some } := by
  have h4 : ∀ v, (emit v).length = 4 := fun v => (hb v 0 [] [] (by norm_num)).1
  intro m
  induction m with
  | zero =>
    intro k hk
    have hk' : k = vs.length := by omega
    subst hk'
    simp [fill_loop, List.take_length, length_flatMap_four emit h4]
  | succ m ih =>
    intro k hk
    have hlt : k < vs.length := by omega
    have hlen : ((vs.take k).flatMap emit).length = 4 * k := by
      rw [length_flatMap_four emit h4, List.length_take]
      omega
    have hbody := (hb (vs.get ⟨k, hlt⟩) k ((vs.take k).flatMap emit)
      (List.replicate (4 * m) none) (by omega)).2
    have hrep : List.replicate (4 * (m + 1)) (none : Option α)
        = List.replicate 4 none ++ List.replicate (4 * m) none := by
      rw [← List.replicate_add]
      congr 1
      omega
    have hi : (k + 1) % 2 ^ 32 = k + 1 := Nat.mod_eq_of_lt (by omega)
    have hnext := ih (k + 1) (by omega)
    rw [flatMap_take_succ emit vs k hlt, List.length_append, h4] at hnext
    rw [fill_loop]
    simp only [dif_pos hlt, hrep, hbody, hi]
    exact hnext

/-- A fill loop over a non-empty sequence whose first write is already outside the
allocation stops with a heap overflow. -/
theorem fill_loop_overflow (body : vertex α → FillState α → Except DrawError (FillState α))
    (hb : BodyOverflows body) (vs : List (vertex α)) (fuel : Nat) (s : FillState α)
    (hi : s.i < vs.length) (hj : s.cells.length ≤ s.j) :
    fill_loop body vs (fuel + 1) s = .error .heap_overflow := by
  rw [fill_loop]
  simp only [dif_pos hi, hb _ s hj]

/-- A fill loop whose allocation holds only `4c` cells for `c` fewer vertices than the
sequence has: after `c` iterations the next write is outside the allocation. -/
theorem fill_loop_wrapped (body : vertex α → FillState α → Except DrawError (FillState α))
    (emit : vertex α → List α) (hb : BodyEmits body emit) (ho : BodyOverflows body)
    (vs : List (vertex α)) (c : Nat) (hc : c < vs.length) (hc4 : 4 * c < 2 ^ 32) :
    ∀ (m k extra : Nat), k + m = c →
      fill_loop body vs (extra + m + 1)
        { i := k, j := ((vs.take k).flatMap emit).length,
          cells := ((vs.take k).flatMap emit).map some ++ List.replicate (4 * m) none }
      = .error .heap_overflow := by
  have h4 : ∀ v, (emit v).length = 4 := fun v => (hb v 0 [] [] (by norm_num)).1
  intro m
  induction m with
  | zero =>
    intro k extra hk
    exact fill_loop_overflow body ho vs (extra + 0) _ (by simpa using by omega) (by simp)
  | succ m ih =>
    intro k extra hk
    have hlt : k < vs.length := by omega
    have hlen : ((vs.take k).flatMap emit).length = 4 * k := by
      rw [length_flatMap_four emit h4, List.length_take]
      omega
    have hbody := (hb (vs.get ⟨k, hlt⟩) k ((vs.take k).flatMap emit)
      (List.replicate (4 * m) none) (by omega)).2
    have hrep : List.replicate (4 * (m + 1)) (none : Option α)
        = List.replicate 4 none ++ List.replicate (4 * m) none := by
      rw [← List.replicate_add]
      congr 1
      omega
    have hi : (k + 1) % 2 ^ 32 = k + 1 := Nat.mod_eq_of_lt (by omega)
    have hnext := ih (k + 1) extra (by omega)
    rw [flatMap_take_succ emit vs k hlt, List.length_append, h4] at hnext
    have hfuel : extra + (m + 1) + 1 = (extra + m + 1) + 1 := by omega
    rw [hfuel, fill_loop]
    simp only [dif_pos hlt, hrep, hbody, hi]
    exact hnext

/-- With `4n < 2^32` the allocation of `count = 4n mod 2^32` cells is filled completely,
four entries per vertex in vertex order. -/
theorem fill_array_in_range (body : vertex α → FillState α → Except DrawError (FillState α))
    (emit : vertex α → List α) (hb : BodyEmits body emit) (vs : List (vertex α))
    (hn : 4 * vs.length < 2 ^ 32) :
    fill_array body vs ((vs.length * 4) % 2 ^ 32) = .ok ((vs.flatMap emit).map some) := by
  have hcount : (vs.length * 4) % 2 ^ 32 = 4 * vs.length := by
    rw [Nat.mod_eq_of_lt (by omega)]
    omega
  have h := fill_loop_in_range body emit hb vs hn vs.length 0 (by omega)
  simp only [List.take_zero, List.flatMap_nil, List.length_nil, List.map_nil,
    List.nil_append] at h
  simp only [fill_array, hcount, h]
  rfl

/-- With `2^30 ≤ n` the 32-bit `count` has wrapped below `4n` and the fill loop writes
past the allocation. -/
theorem fill_array_wrapped (body : vertex α → FillState α → Except DrawError (FillState α))
    (emit : vertex α → List α) (hb : BodyEmits body emit) (ho : BodyOverflows body)
    (vs : List (vertex α)) (hn : 2 ^ 30 ≤ vs.length) :
    fill_array body vs ((vs.length * 4) % 2 ^ 32) = .error .heap_overflow := by
  have hcount : (vs.length * 4) % 2 ^ 32 = 4 * (vs.length % 2 ^ 30) := by omega
  have hc : vs.length % 2 ^ 30 < vs.length := by omega
  have h := fill_loop_wrapped body emit hb ho vs (vs.length % 2 ^ 30) hc (by omega)
    (vs.length % 2 ^ 30) 0 (vs.length - vs.length % 2 ^ 30) (by omega)
  simp only [List.take_zero, List.flatMap_nil, List.length_nil, List.map_nil,
    List.nil_append] at h
  have hfuel : vs.length - vs.length % 2 ^ 30 + vs.length % 2 ^ 30 + 1 = vs.length + 1 := by
    omega
  rw [hfuel] at h
  simp only [fill_array, hcount, h]
  rfl

theorem to_GLsizei_of_lt (n : Nat) (h : n < 2 ^ 31) : to_GLsizei n = n := by
  have h1 : ((n : Int) % ((2 ^ 32 : Nat) : Int)) = n := by
    rw [Int.emod_eq_of_lt (by omega) (by norm_num; omega)]
  have h2 : (n : Int) < (((2 ^ 32 : Nat) : Int) + 1) / 2 := by
    norm_num
    omega
  simp only [to_GLsizei, Int.bmod, h1, if_pos h2]

/-- Behaviour of `draw` on a sequence of `n` vertices with `4n < 2^32`: the call completes
and issues exactly this command sequence.  The position upload is
`(x, y, z, 1.0)` per vertex, the colour upload `(r/255, g/255, b/255, 1.0)` per vertex,
both of `4n` entries; the three uniforms receive the transform and the camera's view and
projection (identity without a camera); one `glDrawArrays(GL_TRIANGLES, 0, n)` follows. -/
theorem opengl.draw_in_range [DivisionRing α] [CharZero α]
    (glGetUniformLocation : Nat → String → Int) (memory : Nat → camera α) (self : opengl)
    (v : List (vertex α)) (transform : matrix α) (fill : Bool)
    (hn : 4 * v.length < 2 ^ 32) :
    opengl.draw glGetUniformLocation memory self v transform fill = .ok [
      .glPolygonMode .GL_FRONT_AND_BACK (if fill then .GL_FILL else .GL_LINE),
      .glBindVertexArray self.m_array,
      .glBindBuffer .GL_ARRAY_BUFFER self.m_positions,
      .glBufferData .GL_ARRAY_BUFFER (4 * v.length * 4)
        ((v.flatMap position_entries).map some) .GL_DYNAMIC_DRAW,
      .glEnableVertexAttribArray 0,
      .glVertexAttribPointer 0 4 .GL_FLOAT false 0 0,
      .glBindBuffer .GL_ARRAY_BUFFER self.m_colors,
      .glBufferData .GL_ARRAY_BUFFER (4 * v.length * 4)
        ((v.flatMap color_entries).map some) .GL_DYNAMIC_DRAW,
      .glEnableVertexAttribArray 1,
      .glVertexAttribPointer 1 4 .GL_FLOAT false 0 0,
      .glUniformMatrix4fv (glGetUniformLocation self.m_shader_program "matrix_model") 1 true
        transform,
      .glUniformMatrix4fv (glGetUniformLocation self.m_shader_program "matrix_view") 1 true
        (match self.m_camera with
          | some p => (memory p).get_view
          | none => matrix.identity),
      .glUniformMatrix4fv (glGetUniformLocation self.m_shader_program "matrix_projection") 1
        true
        (match self.m_camera with
          | some p => (memory p).get_projection
          | none => matrix.identity),
      .glDrawArrays .GL_TRIANGLES 0 (v.length : Int),
      .glDisableVertexAttribArray 0,
      .glDisableVertexAttribArray 1 ] := by
  have hcount : (v.length * 4) % 2 ^ 32 = 4 * v.length := by
    rw [Nat.mod_eq_of_lt (by omega)]
    omega
  have hp := fill_array_in_range positions_body position_entries positions_body_emits v hn
  have hc := fill_array_in_range colors_body color_entries colors_body_emits v hn
  rw [hcount] at hp hc
  unfold opengl.draw
  simp only [hp, hc, except_ok_bind, to_GLsizei_of_lt v.length (by omega), hcount]

/-- Behaviour of `draw` on a sequence of `n ≥ 2^30` vertices: `count = 4n mod 2^32` is
below `4n`, the position loop writes past `new GLfloat[count]`, and no command sequence
is defined. -/
theorem opengl.draw_wrapped [DivisionRing α] [CharZero α]
    (glGetUniformLocation : Nat → String → Int) (memory : Nat → camera α) (self : opengl)
    (v : List (vertex α)) (transform : matrix α) (fill : Bool)
    (hn : 2 ^ 30 ≤ v.length) :
    opengl.draw glGetUniformLocation memory self v transform fill
      = .error .heap_overflow := by
  have hp := fill_array_wrapped positions_body position_entries positions_body_emits
    positions_body_overflows v hn
  unfold opengl.draw
  simp only [hp, except_error_bind]

/-- The fuel given to the fill loops always suffices: `draw` either completes or stops
with a heap overflow. -/
theorem opengl.draw_fuel_suffices [DivisionRing α] [CharZero α]
    (glGetUniformLocation : Nat → String → Int) (memory : Nat → camera α) (self : opengl)
    (v : List (vertex α)) (transform : matrix α) (fill : Bool) :
    opengl.draw glGetUniformLocation memory self v transform fill ≠ .error .out_of_fuel := by
  by_cases hn : 4 * v.length < 2 ^ 32
  · rw [opengl.draw_in_range glGetUniformLocation memory self v transform fill hn]
    simp
  · rw [opengl.draw_wrapped glGetUniformLocation memory self v transform fill (by omega)]
    simp

/-- In a buffer built from four entries per vertex, the entries at indices
`4i .. 4i+3` are those of vertex `i`. -/
theorem flatMap_four_block (emit : vertex α → List α) (h4 : ∀ v, (emit v).length = 4)
    (vs : List (vertex α)) :
    ∀ (i : Nat) (hi : i < vs.length),
      ((vs.flatMap emit).drop (4 * i)).take 4 = emit (vs.get ⟨i, hi⟩) := by
  induction vs with
  | nil => intro i hi; simp at hi
  | cons a l ih =>
    intro i hi
    cases i with
    | zero =>
      simp only [List.flatMap_cons, Nat.mul_zero, List.drop_zero, List.get_eq_getElem,
        List.getElem_cons_zero]
      rw [← h4 a, List.take_left']
      rfl
    | succ k =>
      have hk : k < l.length := by simpa using hi
      have hsplit : 4 * (k + 1) = (emit a).length + 4 * k := by rw [h4]; omega
      rw [List.flatMap_cons, hsplit, List.drop_append]
      simpa using ih k hk

/-- C3: evaluation of the position fill of `draw` on a sequence of `2^30` vertices: the
32-bit `count` is `0`, so `new GLfloat[count]` has no cell and the first write
`positions[0] = vertices[0].x` is outside the allocation; no buffer of `4n` entries is
uploaded. -/
theorem draw_positions_overflow :
    big_vertices.length = 2 ^ 30 ∧
    (big_vertices.length * 4) % 2 ^ 32 = 0 ∧
    fill_array positions_body big_vertices ((big_vertices.length * 4) % 2 ^ 32)
      = .error .heap_overflow :=
  have hlen : big_vertices.length = 2 ^ 30 := List.length_replicate _ _
  ⟨hlen, by rw [hlen]; norm_num,
    fill_array_wrapped positions_body position_entries positions_body_emits
      positions_body_overflows big_vertices (by rw [hlen])⟩

/-- C2: evaluation of the colour fill of `draw` on a sequence of `2^30` vertices with
stored alpha `0`: the first write `colors[0] = vertices[0].r / 255.0f` is outside the
zero-length allocation; no colour entry, hence no alpha of `1.0`, is uploaded. -/
theorem draw_colors_overflow :
    big_vertex.a = 0 ∧
    fill_array colors_body big_vertices ((big_vertices.length * 4) % 2 ^ 32)
      = .error .heap_overflow :=
  have hlen : big_vertices.length = 2 ^ 30 := List.length_replicate _ _
  ⟨rfl,
    fill_array_wrapped colors_body color_entries colors_body_emits
      colors_body_overflows big_vertices (by rw [hlen])⟩

/-- C6: evaluation of `draw` with a bound camera on a sequence of `2^30` vertices: the
call stops in the position loop with a heap overflow, before any uniform is set. -/
theorem draw_uniforms_unreached :
    (demo_backend.set_camera 0).m_camera = some 0 ∧
    opengl.draw demo_locations demo_memory (demo_backend.set_camera 0) big_vertices 1 true
      = .error .heap_overflow :=
  have hlen : big_vertices.length = 2 ^ 30 := List.length_replicate _ _
  ⟨rfl, opengl.draw_wrapped _ _ _ _ _ _ (by rw [hlen])⟩

/-- C7: evaluation of `draw` on a sequence of `2^31` vertices: the call stops in the
position loop with a heap overflow, so no `glDrawArrays` is issued; and the count
argument that `vertices.size()` converts to is `-2^31`, not `n`. -/
theorem draw_arrays_unreached :
    huge_vertices.length = 2 ^ 31 ∧
    opengl.draw demo_locations demo_memory demo_backend huge_vertices 1 true
      = .error .heap_overflow ∧
    to_GLsizei huge_vertices.length = -(2 ^ 31) :=
  have hlen : huge_vertices.length = 2 ^ 31 := List.length_replicate _ _
  ⟨hlen, opengl.draw_wrapped _ _ _ _ _ _ (by rw [hlen]; norm_num),
    by rw [hlen]; decide⟩

end fill_lemmas


/-! ## Write indices of the fill loops -/

section write_indices

variable {α : Type}

/-- The loop is its passes in sequence: the loop function spends one unit of fuel on one
pass from the head. -/
theorem fill_loop_pass (body : vertex α → FillState α → Except DrawError (FillState α))
    (vs : List (vertex α)) (fuel : Nat) (s : FillState α) :
    fill_loop body vs (fuel + 1) s =
      match fill_iteration body vs s with
      | .ok (some t) => fill_loop body vs fuel t
      | .ok none => .ok s
      | .error e => .error e := by
  rw [fill_loop]
  unfold fill_iteration
  by_cases h : s.i < vs.length
  · simp only [dif_pos h]
    cases body (vs.get ⟨s.i, h⟩) s <;> rfl
  · simp only [dif_neg h]

/-- A write succeeds exactly when its index lies inside the allocation. -/
theorem FillState.store_ok_iff (s : FillState α) (x : α) :
    (∃ t, s.store x = .ok t) ↔ s.j < s.cells.length := by
  unfold FillState.store
  by_cases h : s.j < s.cells.length
  · simp [h]
  · simp [h]

/-- Heads of the first `c` iterations of a fill loop over an allocation of `4c` cells,
`c` at most the number of vertices: at the head of iteration `k` the counters are `i = k`
and `j = 4k`, the first `4k` cells are written and `4(c - k)` cells are left. -/
theorem fill_head_eq (body : vertex α → FillState α → Except DrawError (FillState α))
    (emit : vertex α → List α) (hb : BodyEmits body emit) (vs : List (vertex α)) (c : Nat)
    (hc : c ≤ vs.length) (hc4 : 4 * c < 2 ^ 32) :
    ∀ k, k ≤ c →
      fill_head body vs (4 * c) k
        = .ok (some { i := k, j := 4 * k,
                      cells := ((vs.take k).flatMap emit).map some
                        ++ List.replicate (4 * (c - k)) none }) := by
  have h4 : ∀ v, (emit v).length = 4 := fun v => (hb v 0 [] [] (by norm_num)).1
  intro k
  induction k with
  | zero =>
    intro _
    simp [fill_head]
  | succ k ih =>
    intro hk
    have hlt : k < vs.length := by omega
    have hlen : ((vs.take k).flatMap emit).length = 4 * k := by
      rw [length_flatMap_four emit h4, List.length_take]
      omega
    have hbody := (hb (vs.get ⟨k, hlt⟩) k ((vs.take k).flatMap emit)
      (List.replicate (4 * (c - (k + 1))) none) (by omega)).2
    have hrep : List.replicate (4 * (c - k)) (none : Option α)
        = List.replicate 4 none ++ List.replicate (4 * (c - (k + 1))) none := by
      rw [← List.replicate_add]
      congr 1
      omega
    have hi : (k + 1) % 2 ^ 32 = k + 1 := Nat.mod_eq_of_lt (by omega)
    rw [hlen] at hbody
    rw [fill_head, ih (by omega)]
    simp only [fill_iteration, dif_pos hlt, hrep, hbody, hi,
      flatMap_take_succ emit vs k hlt]
    have hj : 4 * k + 4 = 4 * (k + 1) := by omega
    rw [hj]

/-- Fill loop over `n` vertices with `4n < 2^32`: at the head of every iteration `k`
the counters are `i = k`, `j = 4k`, the array has `count` cells, and the four writes of
the iteration, at `j .. j+3`, are inside it. -/
theorem loop_heads_in_range (body : vertex α → FillState α → Except DrawError (FillState α))
    (emit : vertex α → List α) (hb : BodyEmits body emit) (vs : List (vertex α))
    (hn : 4 * vs.length < 2 ^ 32) (k : Nat) (hk : k ≤ vs.length) :
    ∃ s, fill_head body vs ((vs.length * 4) % 2 ^ 32) k = .ok (some s) ∧ s.i = k ∧
      s.j = 4 * k ∧ s.cells.length = (vs.length * 4) % 2 ^ 32 ∧
      (k < vs.length → s.j + 3 < s.cells.length) := by
  have h4 : ∀ v, (emit v).length = 4 := fun v => (hb v 0 [] [] (by norm_num)).1
  have hcount : (vs.length * 4) % 2 ^ 32 = 4 * vs.length := by
    rw [Nat.mod_eq_of_lt (by omega)]
    omega
  have hlen : ((vs.take k).flatMap emit).length = 4 * k := by
    rw [length_flatMap_four emit h4, List.length_take]
    omega
  rw [hcount]
  refine ⟨_, fill_head_eq body emit hb vs vs.length (le_refl _) hn k hk, rfl, rfl, ?_, ?_⟩
  · simp only [List.length_append, List.length_map, hlen, List.length_replicate]
    omega
  · intro hlt
    simp only [List.length_append, List.length_map, hlen, List.length_replicate]
    omega

/-- Fill loop over `n` vertices with `4n < 2^32`: the loop ends with `i = n` and
`j = count`. -/
theorem loop_end_in_range (body : vertex α → FillState α → Except DrawError (FillState α))
    (emit : vertex α → List α) (hb : BodyEmits body emit) (vs : List (vertex α))
    (hn : 4 * vs.length < 2 ^ 32) :
    ∃ s, fill_loop body vs (vs.length + 1)
        { i := 0, j := 0, cells := List.replicate ((vs.length * 4) % 2 ^ 32) none } = .ok s ∧
      s.i = vs.length ∧ s.j = (vs.length * 4) % 2 ^ 32 := by
  have hcount : (vs.length * 4) % 2 ^ 32 = 4 * vs.length := by
    rw [Nat.mod_eq_of_lt (by omega)]
    omega
  have h := fill_loop_in_range body emit hb vs hn vs.length 0 (by omega)
  simp only [List.take_zero, List.flatMap_nil, List.length_nil, List.map_nil,
    List.nil_append] at h
  rw [hcount]
  exact ⟨_, h, rfl, rfl⟩

/-- Fill loop over `n ≥ 2^30` vertices: the loop reaches the head of iteration `count / 4`
with `j = count`, every cell written, and the next pass writes at index `count`, outside
the allocation. -/
theorem loop_head_wrapped (body : vertex α → FillState α → Except DrawError (FillState α))
    (emit : vertex α → List α) (hb : BodyEmits body emit) (ho : BodyOverflows body)
    (vs : List (vertex α)) (hn : 2 ^ 30 ≤ vs.length) :
    ∃ s, fill_head body vs ((vs.length * 4) % 2 ^ 32) ((vs.length * 4) % 2 ^ 32 / 4)
        = .ok (some s) ∧
      s.j = (vs.length * 4) % 2 ^ 32 ∧ s.cells.length = (vs.length * 4) % 2 ^ 32 ∧
      fill_iteration body vs s = .error .heap_overflow := by
  have h4 : ∀ v, (emit v).length = 4 := fun v => (hb v 0 [] [] (by norm_num)).1
  have hcount : (vs.length * 4) % 2 ^ 32 = 4 * (vs.length % 2 ^ 30) := by omega
  have hdiv : 4 * (vs.length % 2 ^ 30) / 4 = vs.length % 2 ^ 30 := by omega
  have hc : vs.length % 2 ^ 30 < vs.length := by omega
  have hlen : ((vs.take (vs.length % 2 ^ 30)).flatMap emit).length
      = 4 * (vs.length % 2 ^ 30) := by
    rw [length_flatMap_four emit h4, List.length_take]
    omega
  have hcells : (((vs.take (vs.length % 2 ^ 30)).flatMap emit).map some
      ++ List.replicate (4 * (vs.length % 2 ^ 30 - vs.length % 2 ^ 30)) (none : Option α)).length
      = 4 * (vs.length % 2 ^ 30) := by
    simp only [List.length_append, List.length_map, hlen, List.length_replicate]
    omega
  rw [hcount, hdiv]
  refine ⟨_, fill_head_eq body emit hb vs (vs.length % 2 ^ 30) (by omega) (by omega) _
    (le_refl _), rfl, hcells, ?_⟩
  simp only [fill_iteration, dif_pos hc]
  rw [ho _ _ (by simp only [hcells]; exact le_refl _)]

/-- C11: for a sequence of `n` vertices with `4n < 2^32`, in both fill loops of `draw` the
allocation has `count = 4n` cells, the head of every iteration `k` has `i = k` and
`j = 4k`, the four writes of an iteration (at `j .. j+3`) are strictly below `count`,
and the loop ends with `j = count`; for `n ≥ 2^30` the 32-bit `count` is `4n mod 2^32`,
which is below the `4n` elements the loops write: once `count` cells are written the next
pass of either loop writes at index `count`, outside the allocation. -/
theorem fill_loops_write_indices [DivisionRing α] [CharZero α] (vs : List (vertex α)) :
    (4 * vs.length < 2 ^ 32 →
      (vs.length * 4) % 2 ^ 32 = 4 * vs.length ∧
      (∀ k, k ≤ vs.length →
        (∃ s, fill_head positions_body vs ((vs.length * 4) % 2 ^ 32) k = .ok (some s) ∧
          s.i = k ∧ s.j = 4 * k ∧ s.cells.length = (vs.length * 4) % 2 ^ 32 ∧
          (k < vs.length → s.j + 3 < s.cells.length)) ∧
        (∃ s, fill_head colors_body vs ((vs.length * 4) % 2 ^ 32) k = .ok (some s) ∧
          s.i = k ∧ s.j = 4 * k ∧ s.cells.length = (vs.length * 4) % 2 ^ 32 ∧
          (k < vs.length → s.j + 3 < s.cells.length))) ∧
      (∃ s, fill_loop positions_body vs (vs.length + 1)
          { i := 0, j := 0, cells := List.replicate ((vs.length * 4) % 2 ^ 32) none }
          = .ok s ∧ s.i = vs.length ∧ s.j = (vs.length * 4) % 2 ^ 32) ∧
      (∃ s, fill_loop colors_body vs (vs.length + 1)
          { i := 0, j := 0, cells := List.replicate ((vs.length * 4) % 2 ^ 32) none }
          = .ok s ∧ s.i = vs.length ∧ s.j = (vs.length * 4) % 2 ^ 32)) ∧
    (2 ^ 30 ≤ vs.length →
      (vs.length * 4) % 2 ^ 32 = (4 * vs.length) % 2 ^ 32 ∧
      (vs.length * 4) % 2 ^ 32 < 4 * vs.length ∧
      (∃ s, fill_head positions_body vs ((vs.length * 4) % 2 ^ 32)
          ((vs.length * 4) % 2 ^ 32 / 4) = .ok (some s) ∧
        s.j = (vs.length * 4) % 2 ^ 32 ∧ s.cells.length = (vs.length * 4) % 2 ^ 32 ∧
        fill_iteration positions_body vs s = .error .heap_overflow) ∧
      (∃ s, fill_head colors_body vs ((vs.length * 4) % 2 ^ 32)
          ((vs.length * 4) % 2 ^ 32 / 4) = .ok (some s) ∧
        s.j = (vs.length * 4) % 2 ^ 32 ∧ s.cells.length = (vs.length * 4) % 2 ^ 32 ∧
        fill_iteration colors_body vs s = .error .heap_overflow) ∧
      fill_array positions_body vs ((vs.length * 4) % 2 ^ 32) = .error .heap_overflow ∧
      fill_array colors_body vs ((vs.length * 4) % 2 ^ 32) = .error .heap_overflow) := by
  refine ⟨fun hn => ⟨?_, fun k hk => ⟨?_, ?_⟩, ?_, ?_⟩, fun hn => ⟨?_, ?_, ?_, ?_, ?_, ?_⟩⟩
  · rw [Nat.mod_eq_of_lt (by omega)]
    omega
  · exact loop_heads_in_range positions_body position_entries positions_body_emits vs hn k hk
  · exact loop_heads_in_range colors_body color_entries colors_body_emits vs hn k hk
  · exact loop_end_in_range positions_body position_entries positions_body_emits vs hn
  · exact loop_end_in_range colors_body color_entries colors_body_emits vs hn
  · rw [Nat.mul_comm]
  · omega
  · exact loop_head_wrapped positions_body position_entries positions_body_emits
      positions_body_overflows vs hn
  · exact loop_head_wrapped colors_body color_entries colors_body_emits
      colors_body_overflows vs hn
  · exact fill_array_wrapped positions_body position_entries positions_body_emits
      positions_body_overflows vs hn
  · exact fill_array_wrapped colors_body color_entries colors_body_emits
      colors_body_overflows vs hn

theorem fill_loops_write_indices_witness :
    4 * two_vertices.length < 2 ^ 32 ∧ 2 ^ 30 ≤ big_vertices.length ∧
    ((two_vertices.length * 4) % 2 ^ 32 = 4 * two_vertices.length ∧
    (∀ k, k ≤ two_vertices.length →
      (∃ s, fill_head positions_body two_vertices ((two_vertices.length * 4) % 2 ^ 32) k
          = .ok (some s) ∧
        s.i = k ∧ s.j = 4 * k ∧ s.cells.length = (two_vertices.length * 4) % 2 ^ 32 ∧
        (k < two_vertices.length → s.j + 3 < s.cells.length)) ∧
      (∃ s, fill_head colors_body two_vertices ((two_vertices.length * 4) % 2 ^ 32) k
          = .ok (some s) ∧
        s.i = k ∧ s.j = 4 * k ∧ s.cells.length = (two_vertices.length * 4) % 2 ^ 32 ∧
        (k < two_vertices.length → s.j + 3 < s.cells.length))) ∧
    (∃ s, fill_loop positions_body two_vertices (two_vertices.length + 1)
        { i := 0, j := 0, cells := List.replicate ((two_vertices.length * 4) % 2 ^ 32) none }
        = .ok s ∧ s.i = two_vertices.length ∧ s.j = (two_vertices.length * 4) % 2 ^ 32) ∧
    (∃ s, fill_loop colors_body two_vertices (two_vertices.length + 1)
        { i := 0, j := 0, cells := List.replicate ((two_vertices.length * 4) % 2 ^ 32) none }
        = .ok s ∧ s.i = two_vertices.length ∧ s.j = (two_vertices.length * 4) % 2 ^ 32)) ∧
    ((big_vertices.length * 4) % 2 ^ 32 = (4 * big_vertices.length) % 2 ^ 32 ∧
    (big_vertices.length * 4) % 2 ^ 32 < 4 * big_vertices.length ∧
    (∃ s, fill_head positions_body big_vertices ((big_vertices.length * 4) % 2 ^ 32)
        ((big_vertices.length * 4) % 2 ^ 32 / 4) = .ok (some s) ∧
      s.j = (big_vertices.length * 4) % 2 ^ 32 ∧
      s.cells.length = (big_vertices.length * 4) % 2 ^ 32 ∧
      fill_iteration positions_body big_vertices s = .error .heap_overflow) ∧
    (∃ s, fill_head colors_body big_vertices ((big_vertices.length * 4) % 2 ^ 32)
        ((big_vertices.length * 4) % 2 ^ 32 / 4) = .ok (some s) ∧
      s.j = (big_vertices.length * 4) % 2 ^ 32 ∧
      s.cells.length = (big_vertices.length * 4) % 2 ^ 32 ∧
      fill_iteration colors_body big_vertices s = .error .heap_overflow) ∧
    fill_array positions_body big_vertices ((big_vertices.length * 4) % 2 ^ 32)
      = .error .heap_overflow ∧
    fill_array colors_body big_vertices ((big_vertices.length * 4) % 2 ^ 32)
      = .error .heap_overflow) :=
  have hbig : 2 ^ 30 ≤ big_vertices.length := by
    rw [show big_vertices.length = 2 ^ 30 from List.length_replicate _ _]
  ⟨by decide, hbig, (fill_loops_write_indices two_vertices).1 (by decide),
    (fill_loops_write_indices big_vertices).2 hbig⟩

end write_indices

/-! ## Fresh object names -/

theorem le_foldr_max (l : List Nat) (x : Nat) (h : x ∈ l) : x ≤ l.foldr max 0 := by
  induction l with
  | nil => simp at h
  | cons a l ih =>
    rcases List.mem_cons.mp h with rfl | h
    · simp
    · have := ih h
      simp only [List.foldr_cons]
      omega

theorem fresh_not_mem (l : List Nat) : fresh l ∉ l := by
  intro h
  have := le_foldr_max l _ h
  unfold fresh at this
  omega

theorem ne_fresh_of_mem (l : List Nat) (x : Nat) (h : x ∈ l) : x ≠ fresh l := by
  rintro rfl
  exact fresh_not_mem l h

theorem fresh_ne_zero (l : List Nat) : fresh l ≠ 0 := by
  unfold fresh
  omega

/-! ## Backend lifecycle -/

section lifecycle

/-- While initialisation always succeeds, the counter equals the number of live backend
objects, and there is at most one. -/
theorem InitOkRun.counter_eq_live (w : World) (h : InitOkRun w) :
    w.m_instances = w.live.length ∧ w.live.length ≤ 1 := by
  induction h with
  | start => simp [World.initial]
  | construct w width height title garbage _ ih =>
    by_cases h0 : w.m_instances = 0
    · have hl : w.live.length = 0 := by omega
      simp [opengl.new, h0, glGenBuffers, glGenVertexArrays, hl]
    · have hrej : opengl.new width height title true garbage w
          = (.error (.fatal "Failed to initialize OpenGL: An instance already exists."), w) := by
        simp [opengl.new, h0]
      rw [hrej]
      exact ih
  | destroy w self _ hs ih =>
    have hpos : 0 < w.live.length := List.length_pos_of_mem hs
    have h1 : w.m_instances = 1 := by omega
    have hl : (w.live.erase self).length = 0 := by
      rw [List.length_erase_of_mem hs]
      omega
    simp [opengl.delete, glfwTerminate, h1, hl]
  | method w gl live _ hlen ih =>
    simp only [hlen]
    exact ih

/-- C1: in every state reached with successful initialisations, while a backend object is
live a further construction throws the fatal "An instance already exists." error and
leaves the whole state (counter, live objects, driver tables) as it was; once the live
object has been destroyed, a construction succeeds and yields the one live object. -/
theorem second_instance_rejected (w : World) (hw : InitOkRun w) (self : opengl)
    (hs : self ∈ w.live) :
    (∀ (width height : Nat) (title : String) (glewInit : Bool) (garbage : Nat),
      opengl.new width height title glewInit garbage w
        = (.error (.fatal "Failed to initialize OpenGL: An instance already exists."), w)) ∧
    (∀ (width height : Nat) (title : String) (garbage : Nat),
      ∃ next : opengl,
        (opengl.new width height title true garbage (opengl.delete self w)).1 = .ok next ∧
        (opengl.new width height title true garbage (opengl.delete self w)).2.live = [next] ∧
        (opengl.new width height title true garbage (opengl.delete self w)).2.m_instances
          = 1) := by
  obtain ⟨hc, hle⟩ := InitOkRun.counter_eq_live w hw
  have hpos : 0 < w.live.length := List.length_pos_of_mem hs
  have h1 : w.m_instances = 1 := by omega
  have hl : (w.live.erase self).length = 0 := by
    rw [List.length_erase_of_mem hs]
    omega
  have hnil : w.live.erase self = [] := List.length_eq_zero.mp hl
  refine ⟨?_, ?_⟩
  · intro width height title glewInit garbage
    simp [opengl.new, h1]
  · intro width height title garbage
    simp [opengl.new, opengl.delete, glfwTerminate, h1, hnil, glGenBuffers,
      glGenVertexArrays]

theorem second_instance_rejected_witness :
    demo_backend ∈ demo_world.live ∧
    (∀ (width height : Nat) (title : String) (glewInit : Bool) (garbage : Nat),
      opengl.new width height title glewInit garbage demo_world
        = (.error (.fatal "Failed to initialize OpenGL: An instance already exists."),
            demo_world)) ∧
    (∀ (width height : Nat) (title : String) (garbage : Nat),
      ∃ next : opengl,
        (opengl.new width height title true garbage (opengl.delete demo_backend demo_world)).1
          = .ok next ∧
        (opengl.new width height title true garbage
          (opengl.delete demo_backend demo_world)).2.live = [next] ∧
        (opengl.new width height title true garbage
          (opengl.delete demo_backend demo_world)).2.m_instances = 1) :=
  ⟨by decide,
    second_instance_rejected demo_world
      (InitOkRun.construct World.initial 1024 768 "Cosmodon Demo" 0 InitOkRun.start)
      demo_backend (by decide)⟩

/-- The two explicit `glDeleteBuffers` calls of the destructor both name `m_positions`:
on their own they release the position buffer and leave the colour buffer of a
constructed backend allocated. -/
theorem explicit_deletes_keep_color_buffer (w : World) (width height : Nat) (title : String)
    (garbage : Nat) (self : opengl) (w1 : World)
    (h : opengl.new width height title true garbage w = (.ok self, w1)) :
    self.m_colors
      ∈ (glDeleteBuffers (glDeleteBuffers w1.gl self.m_positions) self.m_positions).buffers := by
  by_cases h0 : w.m_instances = 0
  · have hne : fresh (fresh w.gl.buffers :: w.gl.buffers) ≠ fresh w.gl.buffers :=
      fun e => fresh_not_mem (fresh w.gl.buffers :: w.gl.buffers) (by simp [e])
    simp only [opengl.new, h0, glGenBuffers, glGenVertexArrays] at h
    simp only [ne_eq, not_true_eq_false, if_false, Bool.true_eq_false, Prod.mk.injEq,
      Except.ok.injEq] at h
    obtain ⟨rfl, rfl⟩ := h
    simp [glDeleteBuffers, List.erase_cons_tail, hne]
  · simp [opengl.new, h0] at h

/-- C8: a backend object that construction has yielded holds two distinct buffer handles,
`m_positions` and `m_colors`, both allocated; after its destructor has returned, in
whatever state the destructor was entered, neither handle is allocated (nor is any other
object of the context): the position buffer is released by `glDeleteBuffers`, the colour
buffer with the context that `glfwTerminate()` destroys. -/
theorem destructor_releases_both_buffers (w : World) (width height : Nat) (title : String)
    (garbage : Nat) (self : opengl) (w1 : World)
    (h : opengl.new width height title true garbage w = (.ok self, w1)) :
    self.m_positions ∈ w1.gl.buffers ∧ self.m_colors ∈ w1.gl.buffers ∧
    self.m_positions ≠ self.m_colors ∧
    (∀ w2 : World,
      self.m_positions ∉ (opengl.delete self w2).gl.buffers ∧
      self.m_colors ∉ (opengl.delete self w2).gl.buffers ∧
      (opengl.delete self w2).gl = GLState.no_objects) := by
  by_cases h0 : w.m_instances = 0
  · have hne : fresh w.gl.buffers ≠ fresh (fresh w.gl.buffers :: w.gl.buffers) :=
      fun e => fresh_not_mem (fresh w.gl.buffers :: w.gl.buffers) (by simp [← e])
    simp only [opengl.new, h0, glGenBuffers, glGenVertexArrays] at h
    simp only [ne_eq, not_true_eq_false, if_false, Bool.true_eq_false, Prod.mk.injEq,
      Except.ok.injEq] at h
    obtain ⟨rfl, rfl⟩ := h
    refine ⟨by simp, by simp, hne, fun w2 => ?_⟩
    simp [opengl.delete, glfwTerminate, GLState.no_objects]
  · simp [opengl.new, h0] at h

theorem destructor_releases_both_buffers_witness :
    demo_backend.m_positions ∈ demo_world.gl.buffers ∧
    demo_backend.m_colors ∈ demo_world.gl.buffers ∧
    demo_backend.m_positions ≠ demo_backend.m_colors ∧
    (∀ w2 : World,
      demo_backend.m_positions ∉ (opengl.delete demo_backend w2).gl.buffers ∧
      demo_backend.m_colors ∉ (opengl.delete demo_backend w2).gl.buffers ∧
      (opengl.delete demo_backend w2).gl = GLState.no_objects) :=
  destructor_releases_both_buffers World.initial 1024 768 "Cosmodon Demo" 0 demo_backend
    demo_world rfl

/-- In every state reached by constructions and destructions, including constructions
that throw after a failed `glewInit()`, the counter is `0` or `1` and is at least the
number of live backend objects. -/
theorem Run.live_le_counter (w : World) (h : Run w) :
    w.live.length ≤ w.m_instances ∧ w.m_instances ≤ 1 := by
  induction h with
  | start => simp [World.initial]
  | construct w width height title glewInit garbage _ ih =>
    by_cases h0 : w.m_instances = 0
    · have hl : w.live.length = 0 := by omega
      cases glewInit <;>
        simp [opengl.new, h0, glGenBuffers, glGenVertexArrays, hl]
    · have hrej : opengl.new width height title glewInit garbage w
          = (.error (.fatal "Failed to initialize OpenGL: An instance already exists."), w) := by
        simp [opengl.new, h0]
      rw [hrej]
      exact ih
  | destroy w self _ hs ih =>
    have hpos : 0 < w.live.length := List.length_pos_of_mem hs
    have h1 : w.m_instances = 1 := by omega
    have hl : (w.live.erase self).length = 0 := by
      rw [List.length_erase_of_mem hs]
      omega
    simp [opengl.delete, glfwTerminate, h1, hl]

/-- C12: evaluation of a construction from program start in which `glewInit()` fails.
The constructor has already incremented the counter when it throws "Failed to
initialize GLEW."; no object exists and no destructor runs, so the counter is `1` with
no live backend object, and from then on every construction is rejected with "An
instance already exists." and changes nothing. -/
theorem counter_stuck_after_glew_failure :
    Run glew_failed_world ∧
    (opengl.new 1024 768 "Cosmodon Demo" false 0 World.initial).1
      = .error (.fatal "Failed to initialize GLEW.") ∧
    glew_failed_world.m_instances = 1 ∧
    glew_failed_world.live.length = 0 ∧
    (∀ (width height : Nat) (title : String) (glewInit : Bool) (garbage : Nat),
      opengl.new width height title glewInit garbage glew_failed_world
        = (.error (.fatal "Failed to initialize OpenGL: An instance already exists."),
            glew_failed_world)) :=
  ⟨Run.construct World.initial 1024 768 "Cosmodon Demo" false 0 Run.start, rfl, rfl, rfl,
    fun _ _ _ _ _ => rfl⟩

end lifecycle

/-! ## Shader linking -/

section shaders

theorem name_mem_object_names (gl : GLState) (q : ProgramObject) (h : q ∈ gl.programs) :
    q.name ∈ gl.object_names := by
  simp only [GLState.object_names, List.mem_append, List.mem_flatMap]
  exact Or.inr ⟨q, h, by simp⟩

theorem attached_mem_object_names (gl : GLState) (q : ProgramObject) (h : q ∈ gl.programs)
    (x : Nat) (hx : x ∈ q.attached) : x ∈ gl.object_names := by
  simp only [GLState.object_names, List.mem_append, List.mem_flatMap]
  exact Or.inr ⟨q, h, by simp [hx]⟩

theorem erase_two_fresh (a : List Nat) (x y : Nat) (hx : x ∉ a) (hy : y ∉ a) :
    ((a ++ [x] ++ [y]).erase x).erase y = a := by
  rw [List.append_assoc, List.erase_append_right _ hx]
  simp only [List.singleton_append, List.erase_cons_head]
  rw [List.erase_append_right _ hy]
  simp

/-- Attaching two shader objects that occur nowhere else, detaching them and deleting them
restores the driver tables. -/
theorem link_cleanup (g : GLState) (program sv sf : Nat) (hsv : sv ∉ g.shaders)
    (hsf : sf ∉ g.shaders) (hne : sf ≠ sv)
    (hatt : ∀ q ∈ g.programs, sv ∉ q.attached ∧ sf ∉ q.attached) :
    glDeleteShader (glDeleteShader (glDetachShader (glDetachShader (glAttachShader
      (glAttachShader { g with shaders := sf :: sv :: g.shaders } program sv) program sf)
      program sv) program sf) sv) sf = g := by
  have hsh : ((sf :: sv :: g.shaders).erase sv).erase sf = g.shaders := by
    rw [List.erase_cons_tail (by simpa using hne), List.erase_cons_head,
      List.erase_cons_head]
  obtain ⟨buffers, arrays, shaders, programs, current⟩ := g
  simp only [glDeleteShader, glDetachShader, glAttachShader, List.map_map] at *
  rw [hsh]
  congr 1
  conv_rhs => rw [← List.map_id programs]
  apply List.map_congr_left
  intro q hq
  obtain ⟨h1, h2⟩ := hatt q hq
  obtain ⟨name, attached, attributes⟩ := q
  by_cases hn : name = program
  · have := erase_two_fresh attached sv sf h1 h2
    simp_all
  · simp [hn]

/-- The type `compile_shader` passes to `glCreateShader` for a supported level. -/
theorem compile_shader_ok (status : shader → Bool) (report : shader → String) (sh : shader)
    (d : Driver) (hl : sh.level ≠ .geometry) (hs : status sh = true) :
    opengl.compile_shader status report sh d
      = (.ok (fresh d.gl.object_names),
          { gl := { d.gl with shaders := fresh d.gl.object_names :: d.gl.shaders },
            calls := d.calls ++
              [.glCreateShader
                  (if sh.level = .vertex then .GL_VERTEX_SHADER else .GL_FRAGMENT_SHADER)
                  (fresh d.gl.object_names),
                .glShaderSource (fresh d.gl.object_names) sh.code,
                .glCompileShader (fresh d.gl.object_names)] }) := by
  cases hlev : sh.level <;>
    simp_all [opengl.compile_shader, glCreateShader, Driver.issue, DriverCall.apply]

theorem prologue_facts (self : opengl) (d : Driver) :
    (opengl.set_shaders_prologue self d).2.gl.current_program = 0 ∧
    (opengl.set_shaders_prologue self d).1.m_shader_program ≠ 0 ∧
    (∃ q ∈ (opengl.set_shaders_prologue self d).2.gl.programs,
      q.name = (opengl.set_shaders_prologue self d).1.m_shader_program) ∧
    (opengl.set_shaders_prologue self d).2.calls = d.calls ++
      [.glUseProgram 0, .glDeleteProgram self.m_shader_program,
        .glCreateProgram (opengl.set_shaders_prologue self d).1.m_shader_program,
        .glBindAttribLocation (opengl.set_shaders_prologue self d).1.m_shader_program 0
          "position",
        .glBindAttribLocation (opengl.set_shaders_prologue self d).1.m_shader_program 1
          "color"] := by
  refine ⟨rfl, fresh_ne_zero _, ?_, ?_⟩
  · simp [opengl.set_shaders_prologue, glCreateProgram, glBindAttribLocation, Driver.issue,
      DriverCall.apply]
  · simp [opengl.set_shaders_prologue, Driver.issue]

/-- C9: in `set_shaders`, once both shaders have compiled, the commands issued are, in this
order: the prologue, the creation and compilation of the two shader objects, their
attachment to the new program, `glLinkProgram`, then `glDetachShader` and
`glDeleteShader` for both objects, whatever the link status, and `glUseProgram` of the
new program only after a successful link.  When the call ends neither shader object
exists nor is attached to any program; with a failed link the call throws the fatal
"Failed to link OpenGL shaders." error, no program is in use and `m_shader_program` is
`0`; with a successful link the call returns `true` and the new program is in use. -/
theorem set_shaders_releases_shaders (status : shader → Bool) (report : shader → String)
    (link_status : Bool) (self : opengl) (vertex fragment : shader)
    (geometry : Option shader) (d : Driver)
    (hvl : vertex.level ≠ .geometry) (hvs : status vertex = true)
    (hfl : fragment.level ≠ .geometry) (hfs : status fragment = true) :
    ∃ (program shader_vertex shader_fragment : Nat),
      program ≠ 0 ∧ shader_vertex ≠ shader_fragment ∧
      (opengl.set_shaders status report link_status self
          vertex fragment geometry d).2.2.calls
        = d.calls ++
          [.glUseProgram 0, .glDeleteProgram self.m_shader_program,
            .glCreateProgram program,
            .glBindAttribLocation program 0 "position",
            .glBindAttribLocation program 1 "color",
            .glCreateShader
              (if vertex.level = .vertex then .GL_VERTEX_SHADER else .GL_FRAGMENT_SHADER)
              shader_vertex,
            .glShaderSource shader_vertex vertex.code,
            .glCompileShader shader_vertex,
            .glCreateShader
              (if fragment.level = .vertex then .GL_VERTEX_SHADER else .GL_FRAGMENT_SHADER)
              shader_fragment,
            .glShaderSource shader_fragment fragment.code,
            .glCompileShader shader_fragment,
            .glAttachShader program shader_vertex,
            .glAttachShader program shader_fragment,
            .glLinkProgram program,
            .glDetachShader program shader_vertex,
            .glDetachShader program shader_fragment,
            .glDeleteShader shader_vertex,
            .glDeleteShader shader_fragment]
          ++ (if link_status = true then [.glUseProgram program] else []) ∧
      shader_vertex ∉ (opengl.set_shaders status report link_status self
          vertex fragment geometry d).2.2.gl.shaders ∧
      shader_fragment ∉ (opengl.set_shaders status report link_status self
          vertex fragment geometry d).2.2.gl.shaders ∧
      (∀ q ∈ (opengl.set_shaders status report link_status self
          vertex fragment geometry d).2.2.gl.programs,
        shader_vertex ∉ q.attached ∧ shader_fragment ∉ q.attached) ∧
      (∃ q ∈ (opengl.set_shaders status report link_status self
          vertex fragment geometry d).2.2.gl.programs,
        q.name = program) ∧
      (link_status = false →
        (opengl.set_shaders status report link_status self
          vertex fragment geometry d).1
          = .error (.fatal "Failed to link OpenGL shaders.") ∧
        (opengl.set_shaders status report link_status self
          vertex fragment geometry d).2.2.gl.current_program = 0 ∧
        (opengl.set_shaders status report link_status self
          vertex fragment geometry d).2.1.m_shader_program = 0) ∧
      (link_status = true →
        (opengl.set_shaders status report link_status self
          vertex fragment geometry d).1 = .ok true ∧
        (opengl.set_shaders status report link_status self
          vertex fragment geometry d).2.2.gl.current_program = program ∧
        (opengl.set_shaders status report link_status self
          vertex fragment geometry d).2.1.m_shader_program = program) := by
  obtain ⟨hcur, hne0, hex, hcalls⟩ := prologue_facts self d
  rcases hp : opengl.set_shaders_prologue self d with ⟨self1, d1⟩
  rw [hp] at hcur hne0 hex hcalls
  simp only at hcur hne0 hex hcalls
  obtain ⟨g1, calls1⟩ := d1
  simp only at hcur hex hcalls
  obtain ⟨sv, hsv_def⟩ : ∃ sv, sv = fresh g1.object_names := ⟨_, rfl⟩
  have cv := compile_shader_ok status report vertex ⟨g1, calls1⟩ hvl hvs
  simp only [← hsv_def] at cv
  obtain ⟨sf, hsf_def⟩ :
      ∃ sf, sf = fresh (GLState.object_names { g1 with shaders := sv :: g1.shaders }) :=
    ⟨_, rfl⟩
  have cf := compile_shader_ok status report fragment
    ⟨{ g1 with shaders := sv :: g1.shaders }, calls1 ++
      [.glCreateShader (if vertex.level = .vertex then .GL_VERTEX_SHADER
          else .GL_FRAGMENT_SHADER) sv,
        .glShaderSource sv vertex.code, .glCompileShader sv]⟩ hfl hfs
  simp only [← hsf_def] at cf
  -- the two shader objects occur nowhere in the tables they were created in
  have hsv : sv ∉ g1.shaders := by
    rw [hsv_def]
    exact fun h => fresh_not_mem _ (List.mem_append_left _ h)
  have hsf' : sf ∉ sv :: g1.shaders := by
    rw [hsf_def]
    exact fun h => fresh_not_mem _ (List.mem_append_left _ h)
  have hne : sf ≠ sv := fun h => hsf' (by simp [h])
  have hsf : sf ∉ g1.shaders := fun h => hsf' (List.mem_cons_of_mem _ h)
  have hatt : ∀ q ∈ g1.programs, sv ∉ q.attached ∧ sf ∉ q.attached := by
    intro q hq
    constructor
    · rw [hsv_def]
      exact fun h => fresh_not_mem _ (attached_mem_object_names g1 q hq _ h)
    · rw [hsf_def]
      exact fun h => fresh_not_mem _
        (attached_mem_object_names { g1 with shaders := sv :: g1.shaders } q hq _ h)
  have hclean := link_cleanup g1 self1.m_shader_program sv sf hsv hsf hne hatt
  refine ⟨self1.m_shader_program, sv, sf, hne0, fun h => hne h.symm, ?_⟩
  simp only [opengl.set_shaders, hp, cv, cf, Driver.issue, DriverCall.apply, hclean]
  subst hcalls
  cases link_status <;> simp [glUseProgram, hsv, hsf, hne0, hex, hcur]
  all_goals exact fun q hq => hatt q hq

theorem set_shaders_releases_shaders_witness :
    demo_vertex_shader.level ≠ .geometry ∧ accepting_status demo_vertex_shader = true ∧
    demo_fragment_shader.level ≠ .geometry ∧
    accepting_status demo_fragment_shader = true ∧
    ∃ (program shader_vertex shader_fragment : Nat),
      program ≠ 0 ∧ shader_vertex ≠ shader_fragment ∧
      (opengl.set_shaders accepting_status empty_report false demo_backend
          demo_vertex_shader demo_fragment_shader none demo_driver).2.2.calls
        = demo_driver.calls ++
          [.glUseProgram 0, .glDeleteProgram demo_backend.m_shader_program,
            .glCreateProgram program,
            .glBindAttribLocation program 0 "position",
            .glBindAttribLocation program 1 "color",
            .glCreateShader
              (if demo_vertex_shader.level = .vertex then .GL_VERTEX_SHADER else .GL_FRAGMENT_SHADER)
              shader_vertex,
            .glShaderSource shader_vertex demo_vertex_shader.code,
            .glCompileShader shader_vertex,
            .glCreateShader
              (if demo_fragment_shader.level = .vertex then .GL_VERTEX_SHADER else .GL_FRAGMENT_SHADER)
              shader_fragment,
            .glShaderSource shader_fragment demo_fragment_shader.code,
            .glCompileShader shader_fragment,
            .glAttachShader program shader_vertex,
            .glAttachShader program shader_fragment,
            .glLinkProgram program,
            .glDetachShader program shader_vertex,
            .glDetachShader program shader_fragment,
            .glDeleteShader shader_vertex,
            .glDeleteShader shader_fragment]
          ++ (if false = true then [.glUseProgram program] else []) ∧
      shader_vertex ∉ (opengl.set_shaders accepting_status empty_report false demo_backend
          demo_vertex_shader demo_fragment_shader none demo_driver).2.2.gl.shaders ∧
      shader_fragment ∉ (opengl.set_shaders accepting_status empty_report false demo_backend
          demo_vertex_shader demo_fragment_shader none demo_driver).2.2.gl.shaders ∧
      (∀ q ∈ (opengl.set_shaders accepting_status empty_report false demo_backend
          demo_vertex_shader demo_fragment_shader none demo_driver).2.2.gl.programs,
        shader_vertex ∉ q.attached ∧ shader_fragment ∉ q.attached) ∧
      (∃ q ∈ (opengl.set_shaders accepting_status empty_report false demo_backend
          demo_vertex_shader demo_fragment_shader none demo_driver).2.2.gl.programs,
        q.name = program) ∧
      (false = false →
        (opengl.set_shaders accepting_status empty_report false demo_backend
          demo_vertex_shader demo_fragment_shader none demo_driver).1
          = .error (.fatal "Failed to link OpenGL shaders.") ∧
        (opengl.set_shaders accepting_status empty_report false demo_backend
          demo_vertex_shader demo_fragment_shader none demo_driver).2.2.gl.current_program = 0 ∧
        (opengl.set_shaders accepting_status empty_report false demo_backend
          demo_vertex_shader demo_fragment_shader none demo_driver).2.1.m_shader_program = 0) ∧
      (false = true →
        (opengl.set_shaders accepting_status empty_report false demo_backend
          demo_vertex_shader demo_fragment_shader none demo_driver).1 = .ok true ∧
        (opengl.set_shaders accepting_status empty_report false demo_backend
          demo_vertex_shader demo_fragment_shader none demo_driver).2.2.gl.current_program = program ∧
        (opengl.set_shaders accepting_status empty_report false demo_backend
          demo_vertex_shader demo_fragment_shader none demo_driver).2.1.m_shader_program = program) :=
  ⟨by decide, rfl, by decide, rfl,
    set_shaders_releases_shaders accepting_status empty_report false demo_backend
      demo_vertex_shader demo_fragment_shader none demo_driver (by decide) rfl (by decide)
      rfl⟩

end shaders

end cosmodon
